import Mathlib

/-!
Shallow embedding of the document-extraction pipeline of the
align-Import-compliance repository, together with proofs that settle the
frozen claims about it.

Embedded sources:
- `spanish_extractor/extractor.py` (SpanishInvoiceExtractor): the fallback
  pattern-zip line-item builder, confidence scoring, AI path, cache wiring;
- `spanish_extractor/cache.py` (SpanishInvoiceCache): content fingerprint,
  load/save of cached extraction results;
- `src/invoice_processor.py` (InvoiceCache, RetryManager): the second cache
  variant with metadata-bearing fingerprints, and retry with backoff;
- `src/export_manager.py` (IncrementalExporter): the crash-safe session
  store with rollback on resume and the multi-artifact save;
- `spanish_extractor/main.py` (_process_esn_pdfs): semaphore discipline.

Modelling conventions: Python floats and Decimals are modelled as `ℚ`
(conversions between them, which in the pipeline only ever traverse values
that originated as floats, are modelled as exact); `datetime.now()` and
`time.time()` values are threaded in as opaque parameters; MD5 is modelled
as a collision-free digest (the digest is an injective image of the hashed
bytes), matching the spec's stance that collisions are cryptographically
negligible; Python's `str.strip()` is modelled by `pyStrip` below.
-/

namespace ImportCompliance

/-- Python `str.strip()` on the underlying character list: drop whitespace
from both ends. -/
def trimChars (l : List Char) : List Char :=
  ((l.dropWhile Char.isWhitespace).reverse.dropWhile Char.isWhitespace).reverse

/-- Python `str.strip()`. -/
def pyStrip (s : String) : String :=
  String.mk (trimChars s.data)

/-- Model of `ExtractionConfidence` from `spanish_extractor/models.py` (the
`ConfidenceLevel` enumeration of `src/models.py` has the same four values
and is modelled by the same type). -/
inductive ExtractionConfidence where
  | HIGH
  | MEDIUM
  | LOW
  | ERROR
deriving DecidableEq

/-- The `.value` string of the confidence enumeration. -/
def confidenceValue : ExtractionConfidence → String
  | .HIGH => "HIGH"
  | .MEDIUM => "MEDIUM"
  | .LOW => "LOW"
  | .ERROR => "ERROR"

/-- Model of `ExtractionConfidence(str)` construction; an unknown value raises in
Python, modelled as `none`. -/
def confidenceOfValue (s : String) : Option ExtractionConfidence :=
  if s = "HIGH" then some .HIGH
  else if s = "MEDIUM" then some .MEDIUM
  else if s = "LOW" then some .LOW
  else if s = "ERROR" then some .ERROR
  else none

/-- Model of `LineItem` from `spanish_extractor/models.py`. `customs_quantity` and
`unit_value_usd` are Python floats, `total_value_usd` a `Decimal`; all are
modelled as `ℚ`. -/
structure LineItem where
  line_number : Int
  sku_client_reference : String
  material_description : String
  customs_quantity : ℚ
  customs_unit : String
  tariff_fraction : String
  unit_value_usd : ℚ
  total_value_usd : ℚ
deriving DecidableEq

/-- Model of `LineItem.__post_init__`: strings are stripped and negative numeric
fields are clamped to zero. -/
def mkLineItem (line_number : Int) (sku desc : String) (qty : ℚ)
    (unit tariff : String) (unit_val total_val : ℚ) : LineItem :=
  { line_number := line_number
    sku_client_reference := pyStrip sku
    material_description := pyStrip desc
    customs_quantity := if qty < 0 then 0 else qty
    customs_unit := pyStrip unit
    tariff_fraction := pyStrip tariff
    unit_value_usd := if unit_val < 0 then 0 else unit_val
    total_value_usd := if total_val < 0 then 0 else total_val }

/-- Model of `InvoiceData` from `spanish_extractor/models.py`. -/
structure InvoiceData where
  supplier : String
  invoice_date : String
  invoice_number : String
  total_line_items : Nat
  invoice_total_usd : ℚ
  extraction_confidence : ExtractionConfidence
  line_items : List LineItem
  source_file : String
  extraction_notes : String
  processing_time_seconds : ℚ
deriving DecidableEq

/-- Model of `InvoiceData.__post_init__`: strings stripped, `total_line_items`
recomputed as `len(line_items)`. The dataclass defaults (`source_file`,
`extraction_notes` empty, `processing_time_seconds` zero) are passed
explicitly by each construction site below. -/
def mkInvoiceData (supplier invoice_date invoice_number : String)
    (invoice_total_usd : ℚ) (conf : ExtractionConfidence)
    (line_items : List LineItem) (source_file extraction_notes : String)
    (ptime : ℚ) : InvoiceData :=
  { supplier := pyStrip supplier
    invoice_date := pyStrip invoice_date
    invoice_number := pyStrip invoice_number
    total_line_items := line_items.length
    invoice_total_usd := invoice_total_usd
    extraction_confidence := conf
    line_items := line_items
    source_file := pyStrip source_file
    extraction_notes := pyStrip extraction_notes
    processing_time_seconds := ptime }

/-- The synthetic reference-code placeholder `"SKU_EXTRACTED_{i+1}"` used at
zero-based position `i` by `_extract_line_items_regex`. -/
def skuPlaceholder (i : Nat) : String :=
  "SKU_EXTRACTED_" ++ toString (i + 1)

/-- The synthetic description placeholder `"PRODUCT_EXTRACTED_{i+1}"`. -/
def descPlaceholder (i : Nat) : String :=
  "PRODUCT_EXTRACTED_" ++ toString (i + 1)

/-- The per-field global regex match lists of
`SpanishInvoiceExtractor._extract_line_items_regex` (`re.findall` for each
of the seven field patterns). Numeric fields go through
`float(x.replace(",", "."))`, which can raise on a malformed match; a
matched string is therefore modelled as `some q` when the conversion
succeeds and `none` when it raises. -/
structure RegexMatches where
  identifications : List String
  descriptions : List String
  quantities : List (Option ℚ)
  units : List String
  tariffs : List String
  unit_values : List (Option ℚ)
  total_values : List (Option ℚ)
deriving DecidableEq

/-- Model of `lst[i] if i < len(lst) else default` for string fields. -/
def getOrDefault (l : List String) (i : Nat) (dflt : String) : String :=
  match l.get? i with
  | some v => v
  | none => dflt

/-- Model of `float(lst[i].replace(",", ".")) if i < len(lst) else default`:
out-of-range positions take the default; an in-range malformed match
raises, modelled as `none` (the enclosing `try` then skips the item). -/
def getParsedOrDefault (l : List (Option ℚ)) (i : Nat) (dflt : ℚ) : Option ℚ :=
  match l.get? i with
  | some v => v
  | none => some dflt

/-- The positional zip of `_extract_line_items_regex`
(`extractor.py:389-420`): `max_items = max(len(identifications),
len(quantities), len(total_values))`; each position builds a `LineItem`
with per-field fallbacks, and a position whose numeric conversion raises
is skipped (`continue`). -/
def zipLineItems (m : RegexMatches) : List LineItem :=
  let max_items := max m.identifications.length
      (max m.quantities.length m.total_values.length)
  (List.range max_items).filterMap (fun i =>
    let sku := getOrDefault m.identifications i (skuPlaceholder i)
    let desc := getOrDefault m.descriptions i (descPlaceholder i)
    let unit := getOrDefault m.units i "001"
    let tariff := getOrDefault m.tariffs i "00000000"
    match getParsedOrDefault m.quantities i 1,
        getParsedOrDefault m.unit_values i 0,
        getParsedOrDefault m.total_values i 0 with
    | some qty, some unit_val, some total_val =>
        some (mkLineItem (Int.ofNat (i + 1)) (pyStrip sku) (pyStrip desc)
          qty unit tariff unit_val total_val)
    | _, _, _ => none)

/-- Model of `_extract_line_items_regex` (`extractor.py:360-432`): the positional
zip, falling back to `_extract_alternative_patterns` when the zip produced
no items. The alternative-pattern scan reads the raw content; its result
on that content is passed in as `alt`. -/
def extract_line_items_regex (m : RegexMatches) (alt : List LineItem) :
    List LineItem :=
  let line_items := zipLineItems m
  if line_items.isEmpty then alt else line_items

/-- Model of `_calculate_confidence` (`extractor.py:552-573`): three quality
signals, each worth one point; 3 → HIGH, 2 → MEDIUM, 1 → LOW, 0 → ERROR,
with an empty list short-circuiting to ERROR. -/
def calculate_confidence (line_items : List LineItem) : ExtractionConfidence :=
  if line_items.isEmpty then .ERROR
  else
    let has_skus := line_items.enum.any
      (fun p => p.2.sku_client_reference ≠ skuPlaceholder p.1)
    let has_values := line_items.any (fun it => 0 < it.total_value_usd)
    let has_quantities := line_items.any (fun it => 0 < it.customs_quantity)
    let quality_score := (cond has_skus 1 0) + (cond has_values 1 0) +
      (cond has_quantities 1 0)
    if 3 ≤ quality_score then .HIGH
    else if 2 ≤ quality_score then .MEDIUM
    else if 1 ≤ quality_score then .LOW
    else .ERROR

/-- The quality-signal count of `_calculate_confidence`, exposed for the
statement of the confidence-mapping claim. -/
def qualityScore (line_items : List LineItem) : Nat :=
  let has_skus := line_items.enum.any
    (fun p => p.2.sku_client_reference ≠ skuPlaceholder p.1)
  let has_values := line_items.any (fun it => 0 < it.total_value_usd)
  let has_quantities := line_items.any (fun it => 0 < it.customs_quantity)
  (cond has_skus 1 0) + (cond has_values 1 0) + (cond has_quantities 1 0)

/-- One raw line item of the structured response returned by the remote
language model in `_ai_extract` (the `ExtractedLineItem` pydantic model). -/
structure AiRawItem where
  line_number : Int
  sku_client_reference : String
  material_description : String
  customs_quantity : ℚ
  customs_unit : String
  tariff_fraction : String
  unit_value_usd : ℚ
  total_value_usd : ℚ
deriving DecidableEq

/-- The structured response of the remote language model in `_ai_extract`
(the `ExtractedInvoiceData` pydantic model). -/
structure AiResponse where
  supplier : String
  invoice_date : String
  invoice_number : String
  line_items : List AiRawItem
deriving DecidableEq

/-- Model of `_ai_extract` (`extractor.py:218-303`): the remote call either fails
(`none`) or returns a structured response; each raw item is rebuilt as a
`LineItem`; zero items is treated as failure; on success the invoice is
built with confidence HIGH and total summed over the items. -/
def ai_extract (response : Option AiResponse) : Option InvoiceData :=
  match response with
  | none => none
  | some r =>
    let line_items := r.line_items.map (fun it =>
      mkLineItem it.line_number it.sku_client_reference
        it.material_description it.customs_quantity it.customs_unit
        it.tariff_fraction it.unit_value_usd it.total_value_usd)
    if line_items.isEmpty then none
    else some (mkInvoiceData r.supplier r.invoice_date r.invoice_number
      (line_items.map (fun it => it.total_value_usd)).sum
      .HIGH line_items "" "" 0)

/-- The per-item JSON dict written by `SpanishInvoiceCache.save_to_cache`
(`cache.py:104-116`); `total_value_usd` is stored through `float(...)`,
modelled as exact on pipeline values. -/
structure CachedLineItem where
  line_number : Int
  sku_client_reference : String
  material_description : String
  customs_quantity : ℚ
  customs_unit : String
  tariff_fraction : String
  unit_value_usd : ℚ
  total_value_usd : ℚ
deriving DecidableEq

/-- The JSON object written for one fingerprint by
`SpanishInvoiceCache.save_to_cache` (`cache.py:97-119`). -/
structure CacheData where
  supplier : String
  invoice_date : String
  invoice_number : String
  total_line_items : Nat
  invoice_total_usd : ℚ
  extraction_confidence : String
  line_items : List CachedLineItem
  extraction_notes : String
  cached_at : String
deriving DecidableEq

/-- The serialisation of one line item inside `save_to_cache`. -/
def itemToCacheDict (it : LineItem) : CachedLineItem :=
  { line_number := it.line_number
    sku_client_reference := it.sku_client_reference
    material_description := it.material_description
    customs_quantity := it.customs_quantity
    customs_unit := it.customs_unit
    tariff_fraction := it.tariff_fraction
    unit_value_usd := it.unit_value_usd
    total_value_usd := it.total_value_usd }

/-- Rebuilding one `LineItem` from its cached dict in `load_from_cache`
(`cache.py:50-62`); the `LineItem` constructor re-runs `__post_init__`. -/
def cacheDictToItem (d : CachedLineItem) : LineItem :=
  mkLineItem d.line_number d.sku_client_reference d.material_description
    d.customs_quantity d.customs_unit d.tariff_fraction d.unit_value_usd
    d.total_value_usd

/-- Model of `SpanishInvoiceCache.save_to_cache` (`cache.py:83-127`) for one
fingerprint: a no-op (`none`, meaning the entry for the fingerprint is not
written) when confidence is ERROR, otherwise the serialised entry. The
`pdf_path` basename feeds the `cached_at` field. -/
def save_to_cache (pdfName : String) (invoice_data : InvoiceData) :
    Option CacheData :=
  if invoice_data.extraction_confidence = .ERROR then none
  else some
    { supplier := invoice_data.supplier
      invoice_date := invoice_data.invoice_date
      invoice_number := invoice_data.invoice_number
      total_line_items := invoice_data.total_line_items
      invoice_total_usd := invoice_data.invoice_total_usd
      extraction_confidence := confidenceValue invoice_data.extraction_confidence
      line_items := invoice_data.line_items.map itemToCacheDict
      extraction_notes := invoice_data.extraction_notes
      cached_at := pdfName }

/-- Model of `SpanishInvoiceCache.load_from_cache` (`cache.py:36-81`) applied to an
existing cache entry: rebuild the `InvoiceData`, prefixing the notes with
the `"CACHED: "` marker. An unknown confidence string raises inside the
`try`, which the code turns into a cache miss (`none`). The
`InvoiceData` constructor re-runs `__post_init__`. -/
def load_from_cache (d : CacheData) : Option InvoiceData :=
  match confidenceOfValue d.extraction_confidence with
  | none => none
  | some conf => some
    { supplier := pyStrip d.supplier
      invoice_date := pyStrip d.invoice_date
      invoice_number := pyStrip d.invoice_number
      total_line_items := d.line_items.length
      invoice_total_usd := d.invoice_total_usd
      extraction_confidence := conf
      line_items := d.line_items.map cacheDictToItem
      source_file := ""
      extraction_notes := pyStrip ("CACHED: " ++ d.extraction_notes)
      processing_time_seconds := 0 }

/-- The basic header fields produced by `_extract_basic_field` over the
parsed content in `_regex_extract`, plus the field-match lists and the
alternative-pattern scan result for the same content: the deterministic
image of one parsed document under the regex machinery. -/
structure RegexEnv where
  supplier : String
  invoice_number : String
  invoice_date : String
  matchLists : RegexMatches
  alt : List LineItem
deriving DecidableEq

/-- Model of `_regex_extract` (`extractor.py:305-339`), success path: extract the
header fields, build the line items, score them, and assemble the invoice
with notes `"REGEX_EXTRACTION"`. -/
def regex_extract (e : RegexEnv) : InvoiceData :=
  let line_items := extract_line_items_regex e.matchLists e.alt
  let confidence := calculate_confidence line_items
  let total_value := (line_items.map (fun it => it.total_value_usd)).sum
  mkInvoiceData e.supplier e.invoice_date e.invoice_number total_value
    confidence line_items "" "REGEX_EXTRACTION" 0

/-- Model of `_extract_invoice_data` (`extractor.py:202-216`): AI extraction first;
on failure or zero items, the regex fallback. -/
def extract_invoice_data (ai : Option AiResponse) (e : RegexEnv) :
    InvoiceData :=
  match ai_extract ai with
  | some inv => inv
  | none => regex_extract e

/-- Model of `_validate_and_enhance` (`extractor.py:575-586`): set the source file
and processing time, and append the ESN to the notes when present. -/
def validate_and_enhance (invoice_data : InvoiceData) (pdfName esn : String)
    (elapsed : ℚ) : InvoiceData :=
  let withMeta := { invoice_data with
    source_file := pdfName
    processing_time_seconds := elapsed }
  if esn = "" then withMeta
  else { withMeta with
    extraction_notes := withMeta.extraction_notes ++ " | ESN: " ++ esn }

/-- The deterministic environment of one `extract_from_pdf` call: the
state of the cache entry for this file's fingerprint, the parser output
(`none`: the parse call raised and was caught, returning `None`; pages are
pre-rendered into the combined content string), and the images of that
content under the remote model and the regex machinery. -/
structure PdfEnv where
  cache : Option CacheData
  docs : Option (List String)
  ai : Option AiResponse
  regexEnv : RegexEnv
deriving DecidableEq

/-- Model of `_prepare_content` (`extractor.py:185-200`). -/
def prepare_content (docs : List String) : String :=
  pyStrip (docs.foldl (fun acc d => acc ++ d ++ "\n") "")

/-- Outcome of one `extract_from_pdf` call: the returned invoice, the
cache entry for this fingerprint afterwards, and how many remote
collaborator calls (parse or structuring) were issued. -/
structure PdfOutcome where
  result : InvoiceData
  cacheAfter : Option CacheData
  remoteCalls : Nat
deriving DecidableEq

/-- The cache-miss path of `extract_from_pdf` (`extractor.py:82-117`,
steps 2-7): the document is parsed (empty output raises, caught into an
ERROR invoice), extracted (AI then regex), enhanced, and cached unless
the confidence is ERROR. `elapsed` is the measured
`time.time() - start_time`. -/
def extractUncached (env : PdfEnv) (pdfName esn : String) (elapsed : ℚ) :
    PdfOutcome :=
  match env.docs with
  | none =>
    { result := mkInvoiceData "ERROR_SUPPLIER" "ERROR_DATE" "ERROR_INVOICE"
        0 .ERROR [] pdfName
        ("ERROR: No content extracted from PDF | ESN: " ++ esn) elapsed
      cacheAfter := env.cache
      remoteCalls := 1 }
  | some _ =>
    let invoice_data := extract_invoice_data env.ai env.regexEnv
    let invoice_data := validate_and_enhance invoice_data pdfName esn elapsed
    if invoice_data.extraction_confidence = .ERROR then
      { result := invoice_data
        cacheAfter := env.cache
        remoteCalls := 2 }
    else
      { result := invoice_data
        cacheAfter := save_to_cache pdfName invoice_data
        remoteCalls := 2 }

/-- Model of `extract_from_pdf` (`extractor.py:67-117`), cache-lookup head: a hit
returns the cached record with only its processing time updated and no
remote call; anything else falls through to `extractUncached`. -/
def extract_from_pdf (env : PdfEnv) (pdfName esn : String) (elapsed : ℚ) :
    PdfOutcome :=
  match env.cache with
  | some entry =>
    match load_from_cache entry with
    | some cached =>
      { result := { cached with processing_time_seconds := elapsed }
        cacheAfter := some entry
        remoteCalls := 0 }
    | none => extractUncached env pdfName esn elapsed
  | none => extractUncached env pdfName esn elapsed

/-- One invoice dict appended to `session_data["extracted_data"]` by
`IncrementalExporter.add_esn_data`. Only the fields the exporter itself
reads or writes are modelled: `esn` (filter key of the rollback),
`line_items` (only its length is ever used, carried as a count),
`session_id` and `esn_processing_time` (stamped on append). -/
structure SessionInvoice where
  esn : String
  lineItemCount : Nat
  session_id : String
  esn_processing_time : ℚ
deriving DecidableEq

/-- One entry of `session_metadata["completed_esns"]`. -/
structure CompletedEntry where
  esn : String
  completion_time : String
  invoices_count : Nat
  processing_time : ℚ
deriving DecidableEq

/-- One entry of `session_metadata["failed_esns"]`. -/
structure FailedEntry where
  esn : String
  error : String
  failure_time : String
deriving DecidableEq

/-- Model of `session_data["session_metadata"]`. -/
structure SessionMeta where
  session_id : String
  start_time : String
  last_updated : String
  total_esns_to_process : Nat
  completed_esns : List CompletedEntry
  failed_esns : List FailedEntry
  current_status : String
  current_esn_in_progress : Option String
deriving DecidableEq

/-- Model of `session_data["extraction_metadata"]`. `total_invoices` is decremented
by plain subtraction in the rollback, so it is carried as `Int`. -/
structure ExtractionMeta where
  total_invoices : Int
  total_line_items : Nat
  successful_extractions : Nat
  failed_extractions : Nat
  processing_time_seconds : ℚ
deriving DecidableEq

/-- The full `session_data` of `IncrementalExporter`. -/
structure SessionData where
  meta : SessionMeta
  extraction : ExtractionMeta
  extracted_data : List SessionInvoice
deriving DecidableEq

/-- Model of `_initialize_new_session` (`export_manager.py:40-67`), the in-memory
state (which is also what `_save_checkpoint` persists). `now` stands for
`datetime.now().isoformat()`. -/
def initNewSession (session_id now : String) : SessionData :=
  { meta :=
    { session_id := session_id
      start_time := now
      last_updated := now
      total_esns_to_process := 0
      completed_esns := []
      failed_esns := []
      current_status := "INITIALIZING"
      current_esn_in_progress := none }
    extraction :=
    { total_invoices := 0
      total_line_items := 0
      successful_extractions := 0
      failed_extractions := 0
      processing_time_seconds := 0 }
    extracted_data := [] }

/-- Model of `initialize_processing` (`export_manager.py:141-149`). -/
def initProcessing (total_esns : Nat) (s : SessionData) : SessionData :=
  { s with meta := { s.meta with
      total_esns_to_process := total_esns
      current_status := "PROCESSING" } }

/-- Model of `_rollback_incomplete_esn` (`export_manager.py:99-122`): drop every
accumulated invoice whose `esn` equals the incomplete one, subtract the
number removed from `total_invoices`, and recompute `total_line_items`
from the surviving invoices. -/
def rollbackIncompleteEsn (esn : String) (s : SessionData) : SessionData :=
  let original_count := s.extracted_data.length
  let kept := s.extracted_data.filter (fun inv => inv.esn ≠ esn)
  let removed_count := original_count - kept.length
  let total_line_items := (kept.map (fun inv => inv.lineItemCount)).sum
  { s with
    extracted_data := kept
    extraction := { s.extraction with
      total_invoices := s.extraction.total_invoices - Int.ofNat removed_count
      total_line_items := total_line_items } }

/-- Model of `_load_existing_session` (`export_manager.py:70-97`), success path
(the checkpoint file parses): roll back a non-null in-progress ESN, clear
the marker, and mark the session RESUMED. -/
def loadExistingSession (now : String) (s : SessionData) : SessionData :=
  let s :=
    match s.meta.current_esn_in_progress with
    | some esn => rollbackIncompleteEsn esn s
    | none => s
  { s with meta := { s.meta with
      current_esn_in_progress := none
      current_status := "RESUMED"
      last_updated := now } }

/-- Model of `start_esn_processing` (`export_manager.py:151-157`): set the
in-progress marker and persist. The returned state is also the checkpoint
written to disk at this point. -/
def startEsnProcessing (esn now : String) (s : SessionData) : SessionData :=
  { s with meta := { s.meta with
      current_esn_in_progress := some esn
      last_updated := now } }

/-- The in-memory mutations of `add_esn_data` (`export_manager.py:159-199`)
up to and including clearing the in-progress marker — everything that
happens before `_atomic_save_all_formats` is reached. Each invoice is
stamped with the session id and the processing time on append. -/
def addEsnDataBody (esn : String) (invoices : List SessionInvoice)
    (processing_time : ℚ) (now : String) (s : SessionData) : SessionData :=
  let s := startEsnProcessing esn now s
  let stamped := invoices.map (fun inv =>
    { inv with session_id := s.meta.session_id
               esn_processing_time := processing_time })
  let total_line_items := (invoices.map (fun inv => inv.lineItemCount)).sum
  { s with
    extracted_data := s.extracted_data ++ stamped
    meta := { s.meta with
      completed_esns := s.meta.completed_esns ++
        [{ esn := esn
           completion_time := now
           invoices_count := invoices.length
           processing_time := processing_time }]
      current_esn_in_progress := none
      last_updated := now }
    extraction := { s.extraction with
      total_invoices := s.extraction.total_invoices + Int.ofNat invoices.length
      total_line_items := s.extraction.total_line_items + total_line_items
      successful_extractions := s.extraction.successful_extractions +
        invoices.length } }

/-- Model of `add_failed_esn` (`export_manager.py:208-222`). -/
def addFailedEsn (esn error now : String) (s : SessionData) : SessionData :=
  { s with
    meta := { s.meta with
      failed_esns := s.meta.failed_esns ++
        [{ esn := esn, error := error, failure_time := now }]
      current_esn_in_progress := none
      last_updated := now }
    extraction := { s.extraction with
      failed_extractions := s.extraction.failed_extractions + 1 } }

/-- Model of `add_esn_data`, success path: the body runs and the atomic save
succeeds. -/
def addEsnDataOk (esn : String) (invoices : List SessionInvoice)
    (processing_time : ℚ) (now : String) (s : SessionData) : SessionData :=
  addEsnDataBody esn invoices processing_time now s

/-- Model of `add_esn_data`, failure path (`export_manager.py:202-206`): the body
has run, `_atomic_save_all_formats` raises, and the handler rolls the ESN
back and records it as failed. -/
def addEsnDataFail (esn : String) (invoices : List SessionInvoice)
    (processing_time : ℚ) (now error : String) (s : SessionData) :
    SessionData :=
  addFailedEsn esn error now
    (rollbackIncompleteEsn esn (addEsnDataBody esn invoices processing_time now s))

/-- Model of `get_completed_esns` (`export_manager.py:347-349`). -/
def getCompletedEsns (s : SessionData) : List String :=
  s.meta.completed_esns.map (fun e => e.esn)

/-- Model of `get_failed_esns` (`export_manager.py:351-353`). -/
def getFailedEsns (s : SessionData) : List String :=
  s.meta.failed_esns.map (fun e => e.esn)

/-- The four artifact slots of `_atomic_save_all_formats`: checkpoint,
live JSON, live CSV, live Excel. `α` is the artifact content (for the
claims a version number suffices; each artifact's rendering of one
session state carries the same version). -/
structure Artifacts (α : Type) where
  checkpoint : α
  json : α
  csv : α
  excel : α
deriving DecidableEq

/-- Filesystem state during `_atomic_save_all_formats`: the committed
(final-location) artifacts and the temporary files. -/
structure SaveFs (α : Type) where
  committed : Artifacts α
  temp : Artifacts (Option α)
deriving DecidableEq

/-- One step of `_atomic_save_all_formats` (`export_manager.py:224-253`):
first the four temporary-file writes, then the four `shutil.move` calls,
in program order. -/
inductive SaveStep where
  | writeCheckpoint
  | writeJson
  | writeCsv
  | writeExcel
  | moveCheckpoint
  | moveJson
  | moveCsv
  | moveExcel
deriving DecidableEq

/-- The step sequence of `_atomic_save_all_formats` in program order. -/
def saveSteps : List SaveStep :=
  [.writeCheckpoint, .writeJson, .writeCsv, .writeExcel,
   .moveCheckpoint, .moveJson, .moveCsv, .moveExcel]

/-- Effect of one save step on the filesystem: a write fills the
temporary slot with the new content; a move (atomic per file) commits the
temporary slot and clears it. -/
def applySaveStep (newContent : α) (fs : SaveFs α) : SaveStep → SaveFs α
  | .writeCheckpoint =>
    { fs with temp := { fs.temp with checkpoint := some newContent } }
  | .writeJson => { fs with temp := { fs.temp with json := some newContent } }
  | .writeCsv => { fs with temp := { fs.temp with csv := some newContent } }
  | .writeExcel => { fs with temp := { fs.temp with excel := some newContent } }
  | .moveCheckpoint =>
    { fs with
      committed := { fs.committed with
        checkpoint := fs.temp.checkpoint.getD fs.committed.checkpoint }
      temp := { fs.temp with checkpoint := none } }
  | .moveJson =>
    { fs with
      committed := { fs.committed with
        json := fs.temp.json.getD fs.committed.json }
      temp := { fs.temp with json := none } }
  | .moveCsv =>
    { fs with
      committed := { fs.committed with
        csv := fs.temp.csv.getD fs.committed.csv }
      temp := { fs.temp with csv := none } }
  | .moveExcel =>
    { fs with
      committed := { fs.committed with
        excel := fs.temp.excel.getD fs.committed.excel }
      temp := { fs.temp with excel := none } }

/-- Run the first `k` steps of `_atomic_save_all_formats` and then crash:
the filesystem state a failure injected after step `k` leaves behind. -/
def crashAfter (newContent : α) (fs : SaveFs α) (k : Nat) : SaveFs α :=
  (saveSteps.take k).foldl (applySaveStep newContent) fs

/-- All four committed artifacts render the same session state. -/
def consistentArtifacts (a : Artifacts α) : Prop :=
  a.checkpoint = a.json ∧ a.json = a.csv ∧ a.csv = a.excel

/-- Model of `CommercialInvoiceData` from `src/models.py` (the older pipeline's
extraction result). -/
structure CommercialInvoiceData where
  invoice_number : String
  company_name : String
  total_usd_amount : ℚ
  currency : String
  confidence_level : ExtractionConfidence
  extraction_notes : Option String
  amount_source_text : Option String
deriving DecidableEq

/-- The JSON object `InvoiceCache.save_to_cache` (`src/invoice_processor.py
:121-153`) writes for one fingerprint. -/
structure SrcCacheEntry where
  invoice_number : String
  company_name : String
  total_usd_amount : ℚ
  currency : String
  confidence_level : String
  extraction_notes : Option String
  amount_source_text : Option String
  cached_at : ℚ
  file_path : String
deriving DecidableEq

/-- One record of the cache index kept by `InvoiceCache`. -/
structure SrcIndexEntry where
  file_path : String
  cached_at : ℚ
  last_accessed : ℚ
deriving DecidableEq

/-- The mutable state of `InvoiceCache`: the per-fingerprint entry files
and the access-time index. -/
structure SrcCacheState where
  entries : List (String × SrcCacheEntry)
  index : List (String × SrcIndexEntry)
deriving DecidableEq

/-- Association-list update: replace the value at `k` or append it. -/
def setAssoc (l : List (String × β)) (k : String) (v : β) :
    List (String × β) :=
  if (l.map Prod.fst).contains k then
    l.map (fun p => if p.1 = k then (k, v) else p)
  else l ++ [(k, v)]

/-- Model of `_manage_cache_size` (`src/invoice_processor.py:155-176`): when the
index exceeds the ceiling, drop the oldest-accessed ~10% of entries
(stably sorted by `last_accessed`). -/
def manageCacheSize (max_cache_size : Nat) (st : SrcCacheState) :
    SrcCacheState :=
  if max_cache_size < st.index.length then
    let sorted := st.index.mergeSort
      (fun a b => a.2.last_accessed ≤ b.2.last_accessed)
    let remove_count := max 1 (st.index.length / 10)
    let victims := (sorted.take remove_count).map Prod.fst
    { entries := st.entries.filter (fun p => ¬ victims.contains p.1)
      index := st.index.filter (fun p => ¬ victims.contains p.1) }
  else st

/-- Model of `InvoiceCache.save_to_cache` (`src/invoice_processor.py:121-153`):
writes the entry for the file's fingerprint, updates the index, and
manages the cache size. Unlike the `spanish_extractor` cache, it has no
confidence guard of its own. `now` stands for `time.time()`. -/
def srcSaveToCache (max_cache_size : Nat) (file_hash file_path : String)
    (result : CommercialInvoiceData) (now : ℚ) (st : SrcCacheState) :
    SrcCacheState :=
  let entry : SrcCacheEntry :=
    { invoice_number := result.invoice_number
      company_name := result.company_name
      total_usd_amount := result.total_usd_amount
      currency := result.currency
      confidence_level := confidenceValue result.confidence_level
      extraction_notes := result.extraction_notes
      amount_source_text := result.amount_source_text
      cached_at := now
      file_path := file_path }
  let st :=
    { entries := setAssoc st.entries file_hash entry
      index := setAssoc st.index file_hash
        { file_path := file_path, cached_at := now, last_accessed := now } }
  manageCacheSize max_cache_size st

/-- Step 6 of `OptimizedInvoiceProcessor.process_single_invoice`
(`src/invoice_processor.py:322-327`): the pipeline-level cache-store step,
which only calls `save_to_cache` when the confidence is not ERROR. -/
def srcCacheStoreStep (max_cache_size : Nat) (file_hash file_path : String)
    (result : CommercialInvoiceData) (now : ℚ) (st : SrcCacheState) :
    SrcCacheState :=
  if result.confidence_level ≠ .ERROR then
    srcSaveToCache max_cache_size file_hash file_path result now st
  else st

/-- Cache lookup by fingerprint (the existence test of
`load_from_cache`). -/
def srcCacheLookup (st : SrcCacheState) (file_hash : String) :
    Option SrcCacheEntry :=
  (st.entries.find? (fun p => p.1 = file_hash)).map Prod.snd

/-- Result of `RetryManager.retry_with_backoff`
(`src/invoice_processor.py:185-205`) together with the backoff delays it
slept through, in order. The wrapped operation's outcome on attempt `i`
is `outcome i` (`Except`: the awaited call either returns a value or
raises); `frac i` is the value of `time.time() % 1` observed when the
delay for failed attempt `i` is computed. -/
structure RetryRun (ε α : Type) where
  result : Except ε α
  delays : List ℚ

/-- The loop of `retry_with_backoff` from attempt `a`, with `left`
attempts remaining after the current one (`left = max_retries - a`). On a
failure with attempts remaining, note the delay
`base_delay * 2 ** attempt * (0.5 + 0.5 * (time.time() % 1))` and retry;
on the final attempt, re-raise the failure. -/
def retryLoop (outcome : Nat → Except ε α) (frac : Nat → ℚ)
    (base_delay : ℚ) (a : Nat) : (left : Nat) → List ℚ → RetryRun ε α
  | 0, delays =>
    match outcome a with
    | .ok v => { result := .ok v, delays := delays }
    | .error e => { result := .error e, delays := delays }
  | left + 1, delays =>
    match outcome a with
    | .ok v => { result := .ok v, delays := delays }
    | .error _ =>
      let delay := base_delay * 2 ^ a * (1 / 2 + 1 / 2 * frac a)
      retryLoop outcome frac base_delay (a + 1) left (delays ++ [delay])

/-- Model of `retry_with_backoff` (`src/invoice_processor.py:185-205`): attempts
`0 .. max_retries` inclusive; each failed non-final attempt sleeps its
backoff delay; exhaustion re-raises the last exception. -/
def retry_with_backoff (max_retries : Nat) (base_delay : ℚ)
    (outcome : Nat → Except ε α) (frac : Nat → ℚ) : RetryRun ε α :=
  retryLoop outcome frac base_delay 0 max_retries []

/-- A file as the fingerprint computations see it: its byte content and
the `os.stat` metadata the `src` variant mixes in. -/
structure PyFile where
  bytes : List Nat
  st_size : Nat
  st_mtime : ℚ
deriving DecidableEq

/-- Split a byte list into chunks of `n + 1` bytes (the successor
argument keeps the chunk size positive), modelling the fixed-size read
loop of the fingerprint computations. -/
def chunksOf (n : Nat) (l : List Nat) : List (List Nat) :=
  if l.isEmpty then []
  else l.take (n + 1) :: chunksOf n (l.drop (n + 1))
termination_by l.length
decreasing_by
  rename_i h
  simp only [List.length_drop]
  have hl : l ≠ [] := by
    intro hnil
    exact h (by simp [hnil])
  have hpos : 0 < l.length := List.length_pos.mpr hl
  omega

/-- MD5 modelled as a collision-free digest: the digest of a byte stream
is (injectively) the stream itself. Feeding the hasher chunk by chunk
digests the concatenation of the chunks. -/
def md5Digest (chunks : List (List Nat)) : List Nat :=
  chunks.foldl (fun acc c => acc ++ c) []

/-- Model of `hexdigest()` under the same idealisation: an injective rendering of
the digest as a string. -/
def hexdigestModel (digest : List Nat) : String :=
  toString digest

/-- The bytes of a string (for hashing an encoded metadata string). -/
def strBytes (s : String) : List Nat :=
  s.data.map Char.toNat

/-- Model of `SpanishInvoiceCache._get_file_hash` (`cache.py:19-30`): MD5 over the
file content read in 4096-byte chunks; nothing but the bytes enters the
digest. -/
def spanishGetFileHash (f : PyFile) : String :=
  hexdigestModel (md5Digest (chunksOf 4095 f.bytes))

/-- Model of `InvoiceCache._get_file_hash` (`src/invoice_processor.py:56-76`),
non-raising path: MD5 the content in 8192-byte chunks, then hash the
metadata string `f"{st_size}_{st_mtime}_{content_hash.hexdigest()}"`. -/
def srcGetFileHash (f : PyFile) : String :=
  let content_hash := hexdigestModel (md5Digest (chunksOf 8191 f.bytes))
  let meta_string :=
    toString f.st_size ++ "_" ++ toString f.st_mtime ++ "_" ++ content_hash
  hexdigestModel (strBytes meta_string)

/-- Observable events of one work unit in
`SpanishExtractorMain._process_esn_pdfs` (`main.py:226-287`) and
`SpanishInvoiceExtractor.extract_from_pdf` (`extractor.py:67-117`):
semaphore acquisition/release, the cache lookup and its hit, and the
remote collaborator calls. -/
inductive UnitEvent where
  | acquirePermit
  | releasePermit
  | download
  | cacheLookup
  | cacheHit
  | remoteParse
  | remoteStructure
deriving DecidableEq

/-- The event trace of `extract_from_pdf` for a unit whose fingerprint is
(`cached = true`) or is not (`cached = false`) already in the cache: the
cache is consulted first; only on a miss are the remote parse and
structuring collaborators contacted. -/
def extractFromPdfTrace (cached : Bool) : List UnitEvent :=
  .cacheLookup :: (if cached then [.cacheHit]
    else [.remoteParse, .remoteStructure])

/-- The event trace of the `process_single_pdf` closure of
`_process_esn_pdfs` (`main.py:236-267`): `async with semaphore` wraps the
download and the whole `extract_from_pdf` call — including its cache
lookup. -/
def processSinglePdfTrace (cached : Bool) : List UnitEvent :=
  [UnitEvent.acquirePermit, UnitEvent.download] ++
    extractFromPdfTrace cached ++ [UnitEvent.releasePermit]

/-- Event `e` occurs while the permit is held: at some index after
`acquirePermit` and before `releasePermit`. -/
def heldDuring (tr : List UnitEvent) (e : UnitEvent) : Prop :=
  ∃ i j k, i < j ∧ j < k ∧
    tr.get? i = some .acquirePermit ∧
    tr.get? j = some e ∧
    tr.get? k = some .releasePermit

/-! ### Batch-driver run model and concrete scenario inputs -/

/-- One unit-level event of a batch run as the driver reports it to the
`IncrementalExporter`: a unit that reached `add_esn_data` and whose atomic
save succeeded, or a unit the driver recorded via `add_failed_esn`. -/
inductive DriverStep where
  | ok (esn : String) (invoices : List SessionInvoice) (processing_time : ℚ)
  | fail (esn : String) (error : String)
deriving DecidableEq

/-- Apply one driver event to the session state. -/
def applyDriverStep (now : String) (s : SessionData) : DriverStep → SessionData
  | .ok esn invoices t => addEsnDataOk esn invoices t now s
  | .fail esn err => addFailedEsn esn err now s

/-- Fold a list of driver events over the session state. -/
def runDriver (steps : List DriverStep) (now : String) (s : SessionData) :
    SessionData :=
  steps.foldl (applyDriverStep now) s

/-- The unit ids that reached a successful `add_esn_data` in a run. -/
def completedEsnsOf (steps : List DriverStep) : List String :=
  steps.filterMap (fun st =>
    match st with
    | .ok esn _ _ => some esn
    | .fail _ _ => none)

/-- Total invoices contributed by the successful units of a run. -/
def invoicesCountOf (steps : List DriverStep) : Nat :=
  (steps.map (fun st =>
    match st with
    | .ok _ invoices _ => invoices.length
    | .fail _ _ => 0)).sum

/-- Total line items contributed by the successful units of a run. -/
def lineItemsOf (steps : List DriverStep) : Nat :=
  (steps.map (fun st =>
    match st with
    | .ok _ invoices _ => (invoices.map (fun inv => inv.lineItemCount)).sum
    | .fail _ _ => 0)).sum

/-- An `ok` event whose invoices all carry its own unit id (which is how
`_convert_to_target_format` tags them). -/
def stepTaggedB : DriverStep → Bool
  | .ok esn invoices _ => invoices.all (fun inv => inv.esn = esn)
  | .fail _ _ => true

/-- The line count asserted by the zip-padding claim, stated from the
spec's words for comparison with `zipLineItems`: the maximum length among
ALL seven field-match lists. -/
def specMaxFieldMatches (m : RegexMatches) : Nat :=
  max m.identifications.length (max m.descriptions.length
    (max m.quantities.length (max m.units.length (max m.tariffs.length
      (max m.unit_values.length m.total_values.length)))))

/-- Dropping trailing elements satisfying `p` (used to reason about
`pyStrip`). -/
def rdropWhile (p : α → Bool) (l : List α) : List α :=
  (l.reverse.dropWhile p).reverse

/-- Concrete session scenario: a fresh session expecting one unit. -/
def c10state : SessionData := initProcessing 1 (initNewSession "S42" "T0")

/-- Concrete invoice for the persistence-failure scenario. -/
def c10inv : SessionInvoice :=
  { esn := "E9", lineItemCount := 2, session_id := "", esn_processing_time := 0 }

/-- Concrete run for the resume scenario: five completed units, one
invoice each. -/
def c1steps : List DriverStep :=
  [DriverStep.ok "E1"
      [{ esn := "E1", lineItemCount := 2, session_id := "", esn_processing_time := 0 }] 1,
   DriverStep.ok "E2"
      [{ esn := "E2", lineItemCount := 1, session_id := "", esn_processing_time := 1 }] 2,
   DriverStep.ok "E3"
      [{ esn := "E3", lineItemCount := 3, session_id := "", esn_processing_time := 1 }] 1,
   DriverStep.ok "E4"
      [{ esn := "E4", lineItemCount := 1, session_id := "", esn_processing_time := 2 }] 3,
   DriverStep.ok "E5"
      [{ esn := "E5", lineItemCount := 4, session_id := "", esn_processing_time := 1 }] 1]

/-- Initial filesystem for the atomic-save scenario: all four committed
artifacts render session version 0, no temporary files. -/
def c2fs : SaveFs Nat :=
  { committed := { checkpoint := 0, json := 0, csv := 0, excel := 0 }
    temp := { checkpoint := none, json := none, csv := none, excel := none } }

/-- Concrete structured response of the remote model, one line item. -/
def c5resp : AiResponse :=
  { supplier := "ACME SA"
    invoice_date := "01/02/2024"
    invoice_number := "F-001"
    line_items :=
      [{ line_number := 1
         sku_client_reference := "AB-123"
         material_description := "Widget"
         customs_quantity := 2
         customs_unit := "001"
         tariff_fraction := "12345678"
         unit_value_usd := 5
         total_value_usd := 10 }] }

/-- The invoice the AI path produces for `c5resp`. -/
def c5invoice : InvoiceData := (ai_extract (some c5resp)).get (by decide)

/-- A concrete ERROR-confidence result of the older pipeline. -/
def c6err : CommercialInvoiceData :=
  { invoice_number := "ERROR_doc", company_name := "PROCESSING_ERROR",
    total_usd_amount := 0, currency := "UNKNOWN",
    confidence_level := .ERROR,
    extraction_notes := some "Processing failed", amount_source_text := none }

/-- A concrete ERROR-confidence result of the Spanish pipeline. -/
def c6errInvoice : InvoiceData :=
  mkInvoiceData "ERROR_SUPPLIER" "ERROR_DATE" "ERROR_INVOICE" 0 .ERROR []
    "doc.pdf" "ERROR: boom | ESN: E1" 1

/-- An empty cache state of the older pipeline. -/
def c6empty : SrcCacheState := { entries := [], index := [] }

/-- A wrapped operation that fails on every attempt. -/
def c8outcome : Nat → Except String Nat := fun _ => Except.error "boom"

/-- A fixed observed value of `time.time() % 1`. -/
def c8frac : Nat → ℚ := fun _ => 0

/-- A file with content `[1, 2, 3]` and modification time 0. -/
def c9fileA : PyFile := { bytes := [1, 2, 3], st_size := 3, st_mtime := 0 }

/-- A file with the same bytes as `c9fileA` but modification time 1. -/
def c9fileB : PyFile := { bytes := [1, 2, 3], st_size := 3, st_mtime := 1 }

/-- Concrete regex environment for the caching scenario (unused on the AI
success path). -/
def c3regexEnv : RegexEnv :=
  { supplier := "S", invoice_number := "N", invoice_date := "D"
    matchLists :=
      { identifications := []
        descriptions := []
        quantities := []
        units := []
        tariffs := []
        unit_values := []
        total_values := [] }
    alt := [] }

/-- Concrete structured response for the caching scenario. -/
def c3resp : AiResponse :=
  { supplier := "Proveedor SA"
    invoice_date := "02/03/2024"
    invoice_number := "FX-77"
    line_items :=
      [{ line_number := 1
         sku_client_reference := "Z-9"
         material_description := "Gadget"
         customs_quantity := 1
         customs_unit := "001"
         tariff_fraction := "87654321"
         unit_value_usd := 7
         total_value_usd := 7 }] }

/-- Concrete extraction environment with an empty cache. -/
def c3env : PdfEnv :=
  { cache := none, docs := some ["page one"], ai := some c3resp,
    regexEnv := c3regexEnv }

/-- The first (uncached) extraction of the caching scenario. -/
def c3first : PdfOutcome := extract_from_pdf c3env "doc.pdf" "ESN1" 0

/-- The second extraction of the same unmodified document. -/
def c3second : PdfOutcome :=
  extract_from_pdf { c3env with cache := c3first.cacheAfter } "doc.pdf" "ESN1" 0

/-- Match lists on which the claimed all-seven-lists maximum differs from
the code's three-list maximum: one identification, three descriptions. -/
def c4m0 : RegexMatches :=
  { identifications := ["A1"], descriptions := ["D1", "D2", "D3"],
    quantities := [], units := [], tariffs := [], unit_values := [],
    total_values := [] }

/-- The spec's zip-padding example: field-match lists of lengths
[3, 1, 2, 0, 3, 3, 3] in the order identification, description, quantity,
unit, tariff, unit value, total value. -/
def c4m1 : RegexMatches :=
  { identifications := ["A", "B", "C"]
    descriptions := ["D1"]
    quantities := [some 5, some 6]
    units := []
    tariffs := ["11111111", "22222222", "33333333"]
    unit_values := [some 1, some 2, some 3]
    total_values := [some 10, some 20, some 30] }

/-! ### Supporting lemmas -/

theorem dropWhile_head_not (p : α → Bool) (l : List α) :
    l.dropWhile p = [] ∨ ∃ a t, l.dropWhile p = a :: t ∧ p a = false := by
  have h := List.head?_dropWhile_not p l
  cases hd : (l.dropWhile p) with
  | nil => exact Or.inl rfl
  | cons a t =>
    refine Or.inr ⟨a, t, rfl, ?_⟩
    rw [hd] at h
    simpa using h

theorem dropWhile_of_head_not {p : α → Bool} {l : List α}
    (h : l = [] ∨ ∃ a t, l = a :: t ∧ p a = false) : l.dropWhile p = l := by
  rcases h with h | ⟨a, t, rfl, ha⟩
  · simp [h]
  · simp [List.dropWhile_cons, ha]

theorem dropWhile_idem (p : α → Bool) (l : List α) :
    (l.dropWhile p).dropWhile p = l.dropWhile p :=
  dropWhile_of_head_not (dropWhile_head_not p l)

theorem rdropWhile_prefix (p : α → Bool) (l : List α) :
    rdropWhile p l <+: l := by
  rw [← List.reverse_suffix]
  simpa [rdropWhile] using List.dropWhile_suffix (l := l.reverse) p

theorem dropWhile_rdropWhile {p : α → Bool} {l : List α}
    (h : l.dropWhile p = l) : (rdropWhile p l).dropWhile p = rdropWhile p l := by
  apply dropWhile_of_head_not
  rcases hr : rdropWhile p l with _ | ⟨a, t⟩
  · exact Or.inl rfl
  · refine Or.inr ⟨a, t, rfl, ?_⟩
    obtain ⟨s, hs⟩ := rdropWhile_prefix p l
    rw [hr] at hs
    have hl : l = a :: (t ++ s) := by
      rw [← hs]; simp
    rcases dropWhile_head_not p l with h0 | ⟨b, u, hbu, hb⟩
    · rw [h] at h0
      simp [h0] at hl
    · rw [h] at hbu
      rw [hl] at hbu
      injection hbu with h1 _
      rw [h1]
      exact hb

theorem rdropWhile_idem (p : α → Bool) (l : List α) :
    rdropWhile p (rdropWhile p l) = rdropWhile p l := by
  simp [rdropWhile, dropWhile_idem]

theorem trimChars_eq (l : List Char) :
    trimChars l = rdropWhile Char.isWhitespace (l.dropWhile Char.isWhitespace) := by
  simp [trimChars, rdropWhile]

theorem trimChars_idem (l : List Char) : trimChars (trimChars l) = trimChars l := by
  rw [trimChars_eq, trimChars_eq]
  rw [dropWhile_rdropWhile (dropWhile_idem _ l)]
  exact rdropWhile_idem _ _

theorem pyStrip_idem (s : String) : pyStrip (pyStrip s) = pyStrip s := by
  show String.mk (trimChars (String.mk (trimChars s.data)).data) = _
  rw [show (String.mk (trimChars s.data)).data = trimChars s.data from rfl]
  rw [trimChars_idem]
  rfl

theorem filterMap_eq_map_of_forall_some {f : α → Option β} {g : α → β}
    {l : List α} (h : ∀ a ∈ l, f a = some (g a)) : l.filterMap f = l.map g := by
  induction l with
  | nil => rfl
  | cons a t ih =>
    rw [List.filterMap_cons, h a (List.mem_cons_self a t), List.map_cons,
      ih (fun x hx => h x (List.mem_cons_of_mem a hx))]

theorem foldl_append_eq (cs : List (List Nat)) (a : List Nat) :
    cs.foldl (fun x y => x ++ y) a = a ++ cs.foldl (fun x y => x ++ y) [] := by
  induction cs generalizing a with
  | nil => simp
  | cons c cs ih =>
    rw [List.foldl_cons, List.foldl_cons, ih (a ++ c), ih ([] ++ c)]
    simp [List.append_assoc]

theorem md5Digest_chunksOf (n : Nat) (l : List Nat) :
    md5Digest (chunksOf n l) = l := by
  rw [chunksOf]
  by_cases h : l.isEmpty
  · rw [if_pos h]
    rw [List.isEmpty_iff] at h
    simp [md5Digest, h]
  · rw [if_neg h]
    show List.foldl _ _ _ = l
    rw [List.foldl_cons, foldl_append_eq]
    have ih := md5Digest_chunksOf n (l.drop (n + 1))
    rw [show (chunksOf n (l.drop (n + 1))).foldl (fun x y => x ++ y) [] =
        md5Digest (chunksOf n (l.drop (n + 1))) from rfl, ih]
    simp
termination_by l.length
decreasing_by
  simp only [List.length_drop]
  have hl : l ≠ [] := by
    intro hnil
    exact h (by simp [hnil])
  have hpos : 0 < l.length := List.length_pos.mpr hl
  omega

theorem confidenceOfValue_confidenceValue (c : ExtractionConfidence) :
    confidenceOfValue (confidenceValue c) = some c := by
  cases c <;> rfl

/-- Clamping to zero is idempotent. -/
theorem clamp_idem (q : ℚ) :
    (if (if q < 0 then 0 else q) < 0 then (0 : ℚ) else if q < 0 then 0 else q)
      = if q < 0 then 0 else q := by
  by_cases h : q < 0
  · simp [h]
  · simp [h]

/-- The cache serialisation round-trip is the identity on items built by
the `LineItem` constructor. -/
theorem roundtrip_mkLineItem (n : Int) (sku desc : String) (q : ℚ)
    (u t : String) (uv tv : ℚ) :
    cacheDictToItem (itemToCacheDict (mkLineItem n sku desc q u t uv tv))
      = mkLineItem n sku desc q u t uv tv := by
  simp only [cacheDictToItem, itemToCacheDict, mkLineItem, LineItem.mk.injEq]
  simp [pyStrip_idem, clamp_idem]

/-! ### Claim theorems -/

/-- C10: when the atomic save inside `add_esn_data` raises, the error
handler removes the unit's records from the accumulated data and records
the unit in the failed-units list, but leaves the unit's already-appended
entry in the completed-units list — so the same unit id appears in both
the completed and the failed lists, while none of its records remain. -/
theorem c10_failed_save_dual_listing (esn : String)
    (invoices : List SessionInvoice) (processing_time : ℚ)
    (now error : String) (s : SessionData) :
    esn ∈ getCompletedEsns
        (addEsnDataFail esn invoices processing_time now error s) ∧
    esn ∈ getFailedEsns
        (addEsnDataFail esn invoices processing_time now error s) ∧
    ∀ inv ∈ (addEsnDataFail esn invoices processing_time now error s).extracted_data,
      inv.esn ≠ esn := by
  refine ⟨?_, ?_, ?_⟩
  · simp [addEsnDataFail, addFailedEsn, rollbackIncompleteEsn, addEsnDataBody,
      startEsnProcessing, getCompletedEsns]
  · simp [addEsnDataFail, addFailedEsn, rollbackIncompleteEsn, addEsnDataBody,
      startEsnProcessing, getFailedEsns]
  · intro inv hinv
    simp only [addEsnDataFail, addFailedEsn, rollbackIncompleteEsn,
      List.mem_filter] at hinv
    simpa using hinv.2

/-- C10 witness: a concrete persistence failure leaves `"E9"` in both the
completed and the failed lists. -/
theorem c10_witness :
    "E9" ∈ getCompletedEsns (addEsnDataFail "E9" [c10inv] 1 "T1" "disk full" c10state) ∧
    "E9" ∈ getFailedEsns (addEsnDataFail "E9" [c10inv] 1 "T1" "disk full" c10state) :=
  ⟨(c10_failed_save_dual_listing "E9" [c10inv] 1 "T1" "disk full" c10state).1,
   (c10_failed_save_dual_listing "E9" [c10inv] 1 "T1" "disk full" c10state).2.1⟩

/-- C2 counterexample: a failure injected after the fifth step of
`_atomic_save_all_formats` (the move of the checkpoint, before the move of
the JSON artifact) leaves the committed checkpoint already replaced by the
new content while the other committed artifacts still hold the old one:
the previously committed artifact set is neither intact nor mutually
consistent, refuting the claim that a failure injected anywhere during
the save leaves it intact and consistent. -/
theorem c2_counterexample :
    (crashAfter 1 c2fs 5).committed.checkpoint = 1 ∧
    (crashAfter 1 c2fs 5).committed.json = 0 ∧
    (crashAfter 1 c2fs 5).committed ≠ c2fs.committed ∧
    ¬ consistentArtifacts (crashAfter 1 c2fs 5).committed := by
  refine ⟨rfl, rfl, by decide, ?_⟩
  intro h
  have h1 : (crashAfter 1 c2fs 5).committed.checkpoint
      = (crashAfter 1 c2fs 5).committed.json := h.1
  simp [crashAfter, saveSteps, applySaveStep, c2fs] at h1

/-- C2 amended: in `_atomic_save_all_formats` every temporary-file write
precedes every move, and a failure injected anywhere before the first
move (after any of the four write steps) leaves the committed artifact
set byte-for-byte unchanged — in particular the previously committed
checkpoint; each individual move is atomic, but the sequence of four
moves is not, so a failure between moves can leave the committed
checkpoint one state ahead of the other committed artifacts. -/
theorem c2_atomic_save_write_phase {α : Type} (newContent : α)
    (fs : SaveFs α) (k : Nat) (hk : k ≤ 4) :
    (crashAfter newContent fs k).committed = fs.committed ∧
    saveSteps = [SaveStep.writeCheckpoint, SaveStep.writeJson,
        SaveStep.writeCsv, SaveStep.writeExcel] ++
      [SaveStep.moveCheckpoint, SaveStep.moveJson, SaveStep.moveCsv,
        SaveStep.moveExcel] := by
  refine ⟨?_, rfl⟩
  interval_cases k <;> rfl

/-- C2 witness: a failure right after the last temporary write (between
writing the temporary files and the first move) leaves the committed
artifacts unchanged. -/
theorem c2_witness : (crashAfter 2 c2fs 4).committed = c2fs.committed :=
  (c2_atomic_save_write_phase 2 c2fs 4 (by decide)).1

/-- C6 counterexample: `InvoiceCache.save_to_cache` of the older pipeline
has no confidence guard of its own — storing an ERROR-confidence result
into an empty cache creates an entry for its fingerprint, so the store
operation is not a no-op there. -/
theorem c6_counterexample :
    srcCacheLookup (srcSaveToCache 1000 "abc123" "inv.pdf" c6err 100 c6empty)
        "abc123" ≠ none ∧
    srcSaveToCache 1000 "abc123" "inv.pdf" c6err 100 c6empty ≠ c6empty := by
  decide

/-- C6 amended: ERROR records are never cached by either pipeline, but the
guard lives in different places: `SpanishInvoiceCache.save_to_cache`
itself is a no-op on ERROR confidence, while in the older pipeline the
guard is the caller's step 6 (`process_single_invoice`), which skips
`InvoiceCache.save_to_cache` on ERROR — the store function itself writes
whatever it is given. -/
theorem c6_error_records_never_cached :
    (∀ (pdfName : String) (inv : InvoiceData),
      inv.extraction_confidence = ExtractionConfidence.ERROR →
      save_to_cache pdfName inv = none) ∧
    (∀ (mcs : Nat) (fh fp : String) (r : CommercialInvoiceData) (now : ℚ)
      (st : SrcCacheState), r.confidence_level = ExtractionConfidence.ERROR →
      srcCacheStoreStep mcs fh fp r now st = st) := by
  constructor
  · intro pdfName inv h
    simp [save_to_cache, h]
  · intro mcs fh fp r now st h
    simp [srcCacheStoreStep, h]

/-- C6 witness: a concrete ERROR record is stored by neither store path. -/
theorem c6_witness :
    save_to_cache "doc.pdf" c6errInvoice = none ∧
    srcCacheStoreStep 1000 "abc123" "inv.pdf" c6err 100 c6empty = c6empty :=
  ⟨c6_error_records_never_cached.1 "doc.pdf" c6errInvoice rfl,
   c6_error_records_never_cached.2 1000 "abc123" "inv.pdf" c6err 100 c6empty rfl⟩

/-- C7 counterexample: in `_process_esn_pdfs` the semaphore is acquired
before `extract_from_pdf` is entered, and the cache lookup happens inside
that call — so a unit whose fingerprint is already cached still acquires
a permit and holds it across the cache hit, refuting the claim that
cached units bypass the controller entirely. -/
theorem c7_counterexample :
    (processSinglePdfTrace true).get? 0 = some UnitEvent.acquirePermit ∧
    (processSinglePdfTrace true).get? 3 = some UnitEvent.cacheHit ∧
    (processSinglePdfTrace true).get? 4 = some UnitEvent.releasePermit ∧
    UnitEvent.acquirePermit ∈ processSinglePdfTrace true := by
  decide

/-- C7 amended: every remote collaborator contact of a work unit happens
while the unit holds a permit of the bounded controller, but the permit
is acquired before the cache lookup and is held across a cache hit —
cached units do not bypass the controller. -/
theorem c7_permit_discipline (cached : Bool) :
    (UnitEvent.remoteParse ∈ processSinglePdfTrace cached →
      heldDuring (processSinglePdfTrace cached) UnitEvent.remoteParse) ∧
    (UnitEvent.remoteStructure ∈ processSinglePdfTrace cached →
      heldDuring (processSinglePdfTrace cached) UnitEvent.remoteStructure) ∧
    (cached = true →
      heldDuring (processSinglePdfTrace cached) UnitEvent.cacheHit) := by
  cases cached
  · exact ⟨fun _ => ⟨0, 3, 5, by decide⟩, fun _ => ⟨0, 4, 5, by decide⟩,
      fun h => absurd h (by decide)⟩
  · exact ⟨fun h => absurd h (by decide), fun h => absurd h (by decide),
      fun _ => ⟨0, 3, 4, by decide⟩⟩

/-- C7 witness: for an uncached unit the remote parse happens under the
permit; for a cached unit the cache hit happens under the permit. -/
theorem c7_witness :
    heldDuring (processSinglePdfTrace false) UnitEvent.remoteParse ∧
    heldDuring (processSinglePdfTrace true) UnitEvent.cacheHit :=
  ⟨(c7_permit_discipline false).1 (by decide),
   (c7_permit_discipline true).2.2 rfl⟩

/-- C9 amended: the `spanish_extractor` fingerprint depends only on the
file's byte content (so identical bytes always yield the same
fingerprint, and the chunked streaming digest equals the digest of the
whole content); the claim fails for the older pipeline's variant, which
also folds in file size and modification time. -/
theorem c9_content_fingerprint (f1 f2 : PyFile) (h : f1.bytes = f2.bytes) :
    spanishGetFileHash f1 = spanishGetFileHash f2 ∧
    spanishGetFileHash f1 = hexdigestModel f1.bytes := by
  constructor
  · simp [spanishGetFileHash, h]
  · simp [spanishGetFileHash, md5Digest_chunksOf]

/-- C9 counterexample: two files with identical bytes but different
modification times get different fingerprints from
`InvoiceCache._get_file_hash` (under the collision-free digest model), so
the claim does not hold of that computation. -/
theorem c9_counterexample :
    c9fileA.bytes = c9fileB.bytes ∧
    srcGetFileHash c9fileA ≠ srcGetFileHash c9fileB := by
  refine ⟨rfl, ?_⟩
  simp only [srcGetFileHash, md5Digest_chunksOf]
  decide

/-- C9 witness: the two concrete identical-content files get the same
content fingerprint from the `spanish_extractor` computation. -/
theorem c9_witness :
    spanishGetFileHash c9fileA = spanishGetFileHash c9fileB ∧
    spanishGetFileHash c9fileA = hexdigestModel c9fileA.bytes :=
  c9_content_fingerprint c9fileA c9fileB rfl

theorem calculate_confidence_eq_score_form (items : List LineItem)
    (h : ¬ items.isEmpty = true) :
    calculate_confidence items =
      (if 3 ≤ qualityScore items then ExtractionConfidence.HIGH
       else if 2 ≤ qualityScore items then ExtractionConfidence.MEDIUM
       else if 1 ≤ qualityScore items then ExtractionConfidence.LOW
       else ExtractionConfidence.ERROR) := by
  unfold calculate_confidence qualityScore
  rw [if_neg h]

theorem qualityScore_le_three (items : List LineItem) :
    qualityScore items ≤ 3 := by
  have h : ∀ a b c : Bool,
      (cond a 1 0) + (cond b 1 0) + (cond c 1 0) ≤ 3 := by decide
  exact h _ _ _

/-- C5: the fallback confidence is exactly the quality-signal count mapped
through 0 → ERROR, 1 → LOW, 2 → MEDIUM, 3 → HIGH, and every primary-path
(remote-model) success carries confidence HIGH. -/
theorem c5_confidence_mapping :
    (∀ items : List LineItem, calculate_confidence items =
      (if qualityScore items = 0 then ExtractionConfidence.ERROR
       else if qualityScore items = 1 then ExtractionConfidence.LOW
       else if qualityScore items = 2 then ExtractionConfidence.MEDIUM
       else ExtractionConfidence.HIGH)) ∧
    (∀ (r : Option AiResponse) (inv : InvoiceData),
      ai_extract r = some inv →
      inv.extraction_confidence = ExtractionConfidence.HIGH) := by
  constructor
  · intro items
    by_cases hemp : items.isEmpty = true
    · rw [List.isEmpty_iff] at hemp
      subst hemp
      decide
    · rw [calculate_confidence_eq_score_form items hemp]
      have hk := qualityScore_le_three items
      have key : ∀ k : Nat, k ≤ 3 →
          (if 3 ≤ k then ExtractionConfidence.HIGH
           else if 2 ≤ k then ExtractionConfidence.MEDIUM
           else if 1 ≤ k then ExtractionConfidence.LOW
           else ExtractionConfidence.ERROR) =
          (if k = 0 then ExtractionConfidence.ERROR
           else if k = 1 then ExtractionConfidence.LOW
           else if k = 2 then ExtractionConfidence.MEDIUM
           else ExtractionConfidence.HIGH) := by
        intro k hk3
        interval_cases k <;> rfl
      exact key _ hk
  · intro r inv h
    cases r with
    | none => exact absurd h (by simp [ai_extract])
    | some resp =>
      simp only [ai_extract] at h
      split at h
      · exact absurd h (by simp)
      · injection h with h
        rw [← h]
        rfl

/-- C5 witness: the concrete remote-model success `c5resp` yields
confidence HIGH. -/
theorem c5_witness :
    c5invoice.extraction_confidence = ExtractionConfidence.HIGH :=
  c5_confidence_mapping.2 (some c5resp) c5invoice (Option.some_get (by decide)).symm

theorem retryLoop_delays {ε α : Type} (outcome : Nat → Except ε α)
    (frac : Nat → ℚ) (base_delay : ℚ) (left : Nat) :
    ∀ (a : Nat) (ds : List ℚ),
    ∃ m, m ≤ left ∧ (retryLoop outcome frac base_delay a left ds).delays =
      ds ++ (List.range m).map
        (fun j => base_delay * 2 ^ (a + j) * (1 / 2 + 1 / 2 * frac (a + j))) := by
  induction left with
  | zero =>
    intro a ds
    refine ⟨0, le_refl 0, ?_⟩
    cases h : outcome a <;> simp [retryLoop, h]
  | succ left ih =>
    intro a ds
    cases h : outcome a with
    | ok v => exact ⟨0, Nat.zero_le _, by simp [retryLoop, h]⟩
    | error e =>
      obtain ⟨m, hm, hd⟩ :=
        ih (a + 1) (ds ++ [base_delay * 2 ^ a * (1 / 2 + 1 / 2 * frac a)])
      refine ⟨m + 1, Nat.succ_le_succ hm, ?_⟩
      rw [retryLoop]
      simp only [h]
      rw [hd, List.range_succ_eq_map, List.map_cons, List.map_map]
      simp only [Nat.add_zero, List.append_assoc, List.singleton_append]
      congr 2
      refine List.map_congr_left ?_
      intro j _
      simp only [Function.comp_apply]
      have h3 : a + 1 + j = a + Nat.succ j := by omega
      rw [h3]

theorem retryLoop_allfail {ε α : Type} (outcome : Nat → Except ε α)
    (frac : Nat → ℚ) (base_delay : ℚ) (left : Nat) :
    ∀ (a : Nat) (ds : List ℚ),
    (∀ i, a ≤ i → i ≤ a + left → ∃ e, outcome i = .error e) →
    (retryLoop outcome frac base_delay a left ds).result = outcome (a + left) := by
  induction left with
  | zero =>
    intro a ds h
    obtain ⟨e, he⟩ := h a (le_refl a) (by omega)
    simp [retryLoop, he]
  | succ left ih =>
    intro a ds h
    obtain ⟨e, he⟩ := h a (le_refl a) (by omega)
    rw [retryLoop]
    simp only [he]
    rw [ih (a + 1) _ (fun i h1 h2 => h i (by omega) (by omega))]
    congr 1
    omega

theorem retryLoop_error {ε α : Type} (outcome : Nat → Except ε α)
    (frac : Nat → ℚ) (base_delay : ℚ) (left : Nat) :
    ∀ (a : Nat) (ds : List ℚ) (e : ε),
    (retryLoop outcome frac base_delay a left ds).result = .error e →
    outcome (a + left) = .error e := by
  induction left with
  | zero =>
    intro a ds e h
    cases ho : outcome a with
    | ok v => rw [retryLoop, ho] at h; exact absurd h (by simp)
    | error e2 =>
      rw [retryLoop, ho] at h
      simp only at h
      injection h with h
      rw [Nat.add_zero, ho, h]
  | succ left ih =>
    intro a ds e h
    cases ho : outcome a with
    | ok v => rw [retryLoop, ho] at h; exact absurd h (by simp)
    | error e2 =>
      rw [retryLoop, ho] at h
      have := ih (a + 1) _ e h
      rw [← this]
      congr 1
      omega

theorem retryLoop_ok {ε α : Type} (outcome : Nat → Except ε α)
    (frac : Nat → ℚ) (base_delay : ℚ) (left : Nat) :
    ∀ (a : Nat) (ds : List ℚ) (v : α),
    (retryLoop outcome frac base_delay a left ds).result = .ok v →
    ∃ i, a ≤ i ∧ i ≤ a + left ∧ outcome i = .ok v := by
  induction left with
  | zero =>
    intro a ds v h
    cases ho : outcome a with
    | ok w =>
      rw [retryLoop, ho] at h
      simp only at h
      injection h with h
      exact ⟨a, le_refl a, by omega, by rw [ho, h]⟩
    | error e => rw [retryLoop, ho] at h; exact absurd h (by simp)
  | succ left ih =>
    intro a ds v h
    cases ho : outcome a with
    | ok w =>
      rw [retryLoop, ho] at h
      simp only at h
      injection h with h
      exact ⟨a, le_refl a, by omega, by rw [ho, h]⟩
    | error e =>
      rw [retryLoop, ho] at h
      obtain ⟨i, h1, h2, h3⟩ := ih (a + 1) _ v h
      exact ⟨i, by omega, by omega, h3⟩

/-- C8: each failed attempt of `retry_with_backoff` sleeps exactly
`base_delay * 2 ** attempt * (0.5 + 0.5 * (time.time() % 1))` — a jitter
factor in [0.5, 1.0] — before the retry; when all allowed attempts fail,
the last failure is re-raised; the executor never swallows an error: its
result is either a success of some attempt or the final attempt's
exception. -/
theorem c8_retry_backoff {ε α : Type} (max_retries : Nat) (base_delay : ℚ)
    (outcome : Nat → Except ε α) (frac : Nat → ℚ)
    (hb : 0 < base_delay) (hf : ∀ i, 0 ≤ frac i ∧ frac i < 1) :
    (∀ k d,
      (retry_with_backoff max_retries base_delay outcome frac).delays.get? k
        = some d →
      d = base_delay * 2 ^ k * (1 / 2 + 1 / 2 * frac k) ∧
      base_delay * 2 ^ k * (1 / 2) ≤ d ∧ d ≤ base_delay * 2 ^ k) ∧
    ((∀ i, i ≤ max_retries → ∃ e, outcome i = .error e) →
      (retry_with_backoff max_retries base_delay outcome frac).result
        = outcome max_retries) ∧
    (∀ e, (retry_with_backoff max_retries base_delay outcome frac).result
        = .error e → outcome max_retries = .error e) ∧
    (∀ v, (retry_with_backoff max_retries base_delay outcome frac).result
        = .ok v → ∃ i, i ≤ max_retries ∧ outcome i = .ok v) := by
  refine ⟨?_, ?_, ?_, ?_⟩
  · intro k d hk
    obtain ⟨m, _, hd⟩ := retryLoop_delays outcome frac base_delay max_retries 0 []
    rw [retry_with_backoff] at hk
    rw [hd] at hk
    simp only [List.nil_append, List.get?_map] at hk
    cases hr : (List.range m).get? k with
    | none => rw [hr] at hk; exact absurd hk (by simp)
    | some j =>
      rw [hr] at hk
      have hkm : k < m := by
        by_contra hk2
        rw [List.get?_eq_none.mpr (by simpa using Nat.le_of_not_lt hk2)] at hr
        exact Option.noConfusion hr
      have hj : j = k := by
        rw [List.get?_range hkm] at hr
        injection hr with hr
        exact hr.symm
      simp only [Option.map_some'] at hk
      injection hk with hk
      rw [hj, Nat.zero_add] at hk
      refine ⟨hk.symm, ?_, ?_⟩
      · rw [← hk]
        have hB : (0 : ℚ) ≤ base_delay * 2 ^ k :=
          le_of_lt (mul_pos hb (pow_pos (by norm_num) k))
        apply mul_le_mul_of_nonneg_left _ hB
        have := (hf k).1
        linarith
      · rw [← hk]
        have hB : (0 : ℚ) ≤ base_delay * 2 ^ k :=
          le_of_lt (mul_pos hb (pow_pos (by norm_num) k))
        have h2 : base_delay * 2 ^ k * (1 / 2 + 1 / 2 * frac k)
            ≤ base_delay * 2 ^ k * 1 := by
          apply mul_le_mul_of_nonneg_left _ hB
          have := (hf k).2
          linarith
        simpa using h2
  · intro h
    rw [retry_with_backoff]
    rw [retryLoop_allfail outcome frac base_delay max_retries 0 []
      (fun i h1 h2 => h i (by omega))]
    congr 1
    omega
  · intro e h
    rw [retry_with_backoff] at h
    have := retryLoop_error outcome frac base_delay max_retries 0 [] e h
    rwa [Nat.zero_add] at this
  · intro v h
    rw [retry_with_backoff] at h
    obtain ⟨i, _, h2, h3⟩ := retryLoop_ok outcome frac base_delay max_retries 0 [] v h
    exact ⟨i, by omega, h3⟩

/-- C8 witness: with three allowed attempts that all fail, the executor
re-raises the final attempt's exception, and the first backoff delay is
`1 * 2 ** 0 * (0.5 + 0.5 * 0) = 1/2`. -/
theorem c8_witness :
    (retry_with_backoff 2 1 c8outcome c8frac).result = c8outcome 2 ∧
    ((1 : ℚ) / 2 = 1 * 2 ^ 0 * (1 / 2 + 1 / 2 * c8frac 0) ∧
      1 * 2 ^ 0 * (1 / 2 : ℚ) ≤ 1 / 2 ∧ (1 : ℚ) / 2 ≤ 1 * 2 ^ 0) :=
  ⟨(c8_retry_backoff 2 1 c8outcome c8frac (by norm_num)
      (fun i => by norm_num [c8frac])).2.1 (fun i _ => ⟨"boom", rfl⟩),
   (c8_retry_backoff 2 1 c8outcome c8frac (by norm_num)
      (fun i => by norm_num [c8frac])).1 0 (1 / 2)
      (by norm_num [retry_with_backoff, retryLoop, c8outcome, c8frac])⟩

theorem getParsed_isSome (l : List (Option ℚ)) (i : Nat) (d : ℚ)
    (h : ∀ x ∈ l, x ≠ none) :
    ∃ q, getParsedOrDefault l i d = some q := by
  unfold getParsedOrDefault
  cases hg : l.get? i with
  | none => exact ⟨d, rfl⟩
  | some v =>
    have hv : v ∈ l := List.get?_mem hg
    cases v with
    | none => exact absurd rfl (h none hv)
    | some q => exact ⟨q, rfl⟩

/-- C4 counterexample: for match lists with one identification and three
descriptions (and nothing else), the code produces one line item while the
claimed rule — the maximum length among all seven field-match lists —
demands three: the zip length is `max(len(identifications),
len(quantities), len(total_values))`, not the maximum over all fields. -/
theorem c4_counterexample :
    (extract_line_items_regex c4m0 []).length = 1 ∧
    specMaxFieldMatches c4m0 = 3 ∧
    (extract_line_items_regex c4m0 []).length ≠ specMaxFieldMatches c4m0 := by
  refine ⟨?_, rfl, ?_⟩ <;> decide

/-- C4 amended: when every matched numeric string converts cleanly, the
fallback produces exactly `max(len(identifications), len(quantities),
len(total_values))` line items (not the maximum over all seven lists),
and each position beyond a field list's length carries that field's
synthetic placeholder: the generated reference code and description, a
default quantity of 1, unit `"001"`, tariff `"00000000"`, and a default
unit and total value of 0. -/
theorem c4_zip_padding (m : RegexMatches) (alt : List LineItem)
    (hq : ∀ x ∈ m.quantities, x ≠ none)
    (hu : ∀ x ∈ m.unit_values, x ≠ none)
    (ht : ∀ x ∈ m.total_values, x ≠ none)
    (hpos : 0 < max m.identifications.length
        (max m.quantities.length m.total_values.length)) :
    (extract_line_items_regex m alt).length
      = max m.identifications.length
          (max m.quantities.length m.total_values.length) ∧
    (∀ i, i < max m.identifications.length
        (max m.quantities.length m.total_values.length) →
      (m.identifications.length ≤ i →
        ((extract_line_items_regex m alt).get? i).map
            (fun it => it.sku_client_reference)
          = some (pyStrip (skuPlaceholder i))) ∧
      (m.descriptions.length ≤ i →
        ((extract_line_items_regex m alt).get? i).map
            (fun it => it.material_description)
          = some (pyStrip (descPlaceholder i))) ∧
      (m.quantities.length ≤ i →
        ((extract_line_items_regex m alt).get? i).map
            (fun it => it.customs_quantity) = some 1) ∧
      (m.units.length ≤ i →
        ((extract_line_items_regex m alt).get? i).map
            (fun it => it.customs_unit) = some "001") ∧
      (m.tariffs.length ≤ i →
        ((extract_line_items_regex m alt).get? i).map
            (fun it => it.tariff_fraction) = some "00000000") ∧
      (m.unit_values.length ≤ i →
        ((extract_line_items_regex m alt).get? i).map
            (fun it => it.unit_value_usd) = some 0) ∧
      (m.total_values.length ≤ i →
        ((extract_line_items_regex m alt).get? i).map
            (fun it => it.total_value_usd) = some 0)) := by
  have hmap : zipLineItems m =
      (List.range (max m.identifications.length
        (max m.quantities.length m.total_values.length))).map (fun i =>
          mkLineItem (Int.ofNat (i + 1))
            (pyStrip (getOrDefault m.identifications i (skuPlaceholder i)))
            (pyStrip (getOrDefault m.descriptions i (descPlaceholder i)))
            ((getParsedOrDefault m.quantities i 1).getD 1)
            (getOrDefault m.units i "001")
            (getOrDefault m.tariffs i "00000000")
            ((getParsedOrDefault m.unit_values i 0).getD 0)
            ((getParsedOrDefault m.total_values i 0).getD 0)) := by
    apply filterMap_eq_map_of_forall_some
    intro i _
    obtain ⟨q1, h1⟩ := getParsed_isSome m.quantities i 1 hq
    obtain ⟨q2, h2⟩ := getParsed_isSome m.unit_values i 0 hu
    obtain ⟨q3, h3⟩ := getParsed_isSome m.total_values i 0 ht
    simp only [h1, h2, h3, Option.getD_some]
  have hne : ¬ (zipLineItems m).isEmpty = true := by
    intro hemp
    rw [List.isEmpty_iff] at hemp
    rw [hmap] at hemp
    have hlen := congrArg List.length hemp
    rw [List.length_map, List.length_range] at hlen
    simp only [List.length_nil] at hlen
    rw [hlen] at hpos
    exact lt_irrefl 0 hpos
  have hitems : extract_line_items_regex m alt = zipLineItems m := by
    unfold extract_line_items_regex
    rw [if_neg hne]
  rw [hitems, hmap]
  constructor
  · simp
  · intro i hi
    have hget : ((List.range (max m.identifications.length
        (max m.quantities.length m.total_values.length))).map (fun i =>
          mkLineItem (Int.ofNat (i + 1))
            (pyStrip (getOrDefault m.identifications i (skuPlaceholder i)))
            (pyStrip (getOrDefault m.descriptions i (descPlaceholder i)))
            ((getParsedOrDefault m.quantities i 1).getD 1)
            (getOrDefault m.units i "001")
            (getOrDefault m.tariffs i "00000000")
            ((getParsedOrDefault m.unit_values i 0).getD 0)
            ((getParsedOrDefault m.total_values i 0).getD 0))).get? i
        = some (mkLineItem (Int.ofNat (i + 1))
            (pyStrip (getOrDefault m.identifications i (skuPlaceholder i)))
            (pyStrip (getOrDefault m.descriptions i (descPlaceholder i)))
            ((getParsedOrDefault m.quantities i 1).getD 1)
            (getOrDefault m.units i "001")
            (getOrDefault m.tariffs i "00000000")
            ((getParsedOrDefault m.unit_values i 0).getD 0)
            ((getParsedOrDefault m.total_values i 0).getD 0)) := by
      rw [List.get?_map, List.get?_range hi, Option.map_some']
    rw [hget]
    refine ⟨?_, ?_, ?_, ?_, ?_, ?_, ?_⟩
    · intro hlen
      simp only [Option.map_some', mkLineItem]
      rw [getOrDefault, List.get?_eq_none.mpr hlen, pyStrip_idem]
    · intro hlen
      simp only [Option.map_some', mkLineItem]
      rw [getOrDefault, List.get?_eq_none.mpr hlen, pyStrip_idem]
    · intro hlen
      simp only [Option.map_some', mkLineItem]
      rw [getParsedOrDefault, List.get?_eq_none.mpr hlen]
      norm_num
    · intro hlen
      simp only [Option.map_some', mkLineItem]
      rw [getOrDefault, List.get?_eq_none.mpr hlen]
      decide
    · intro hlen
      simp only [Option.map_some', mkLineItem]
      rw [getOrDefault, List.get?_eq_none.mpr hlen]
      decide
    · intro hlen
      simp only [Option.map_some', mkLineItem]
      rw [getParsedOrDefault, List.get?_eq_none.mpr hlen]
      norm_num
    · intro hlen
      simp only [Option.map_some', mkLineItem]
      rw [getParsedOrDefault, List.get?_eq_none.mpr hlen]
      norm_num

/-- C4 witness: on the spec's example of field-match lists with lengths
[3, 1, 2, 0, 3, 3, 3] the fallback produces exactly 3 line items, the
second and third descriptions are synthetic, the third quantity defaults
to 1, and every unit defaults to `"001"`. -/
theorem c4_witness :
    (extract_line_items_regex c4m1 []).length = 3 ∧
    ((extract_line_items_regex c4m1 []).get? 1).map
        (fun it => it.material_description)
      = some (pyStrip (descPlaceholder 1)) ∧
    ((extract_line_items_regex c4m1 []).get? 2).map
        (fun it => it.customs_quantity) = some 1 ∧
    ((extract_line_items_regex c4m1 []).get? 0).map
        (fun it => it.customs_unit) = some "001" := by
  have h := c4_zip_padding c4m1 [] (by decide) (by decide) (by decide) (by decide)
  exact ⟨h.1, (h.2 1 (by decide)).2.1 (by decide),
    (h.2 2 (by decide)).2.2.1 (by decide),
    (h.2 0 (by decide)).2.2.2.1 (by decide)⟩

theorem addEsnDataOk_spec (esn : String) (invoices : List SessionInvoice)
    (t : ℚ) (now : String) (s : SessionData) :
    (addEsnDataOk esn invoices t now s).meta.completed_esns
      = s.meta.completed_esns ++
        [{ esn := esn, completion_time := now,
           invoices_count := invoices.length, processing_time := t }] ∧
    (addEsnDataOk esn invoices t now s).extracted_data
      = s.extracted_data ++ invoices.map (fun inv =>
          { inv with session_id := s.meta.session_id
                     esn_processing_time := t }) ∧
    (addEsnDataOk esn invoices t now s).extraction.total_invoices
      = s.extraction.total_invoices + Int.ofNat invoices.length ∧
    (addEsnDataOk esn invoices t now s).extraction.total_line_items
      = s.extraction.total_line_items
        + (invoices.map (fun inv => inv.lineItemCount)).sum ∧
    (addEsnDataOk esn invoices t now s).meta.session_id = s.meta.session_id :=
  ⟨rfl, rfl, rfl, rfl, rfl⟩

theorem addFailedEsn_spec (esn err now : String) (s : SessionData) :
    (addFailedEsn esn err now s).meta.completed_esns
      = s.meta.completed_esns ∧
    (addFailedEsn esn err now s).extracted_data = s.extracted_data ∧
    (addFailedEsn esn err now s).extraction.total_invoices
      = s.extraction.total_invoices ∧
    (addFailedEsn esn err now s).extraction.total_line_items
      = s.extraction.total_line_items ∧
    (addFailedEsn esn err now s).meta.session_id = s.meta.session_id :=
  ⟨rfl, rfl, rfl, rfl, rfl⟩

theorem runDriver_spec (steps : List DriverStep) (now : String) :
    ∀ s : SessionData,
    (runDriver steps now s).meta.completed_esns.map (fun e => e.esn)
      = s.meta.completed_esns.map (fun e => e.esn) ++ completedEsnsOf steps ∧
    (runDriver steps now s).extraction.total_invoices
      = s.extraction.total_invoices + Int.ofNat (invoicesCountOf steps) ∧
    (runDriver steps now s).extraction.total_line_items
      = s.extraction.total_line_items + lineItemsOf steps ∧
    ((runDriver steps now s).extracted_data.map
        (fun inv => inv.lineItemCount)).sum
      = (s.extracted_data.map (fun inv => inv.lineItemCount)).sum
        + lineItemsOf steps ∧
    ((∀ st ∈ steps, stepTaggedB st = true) →
      ∀ inv ∈ (runDriver steps now s).extracted_data,
        inv ∈ s.extracted_data ∨ inv.esn ∈ completedEsnsOf steps) := by
  induction steps with
  | nil =>
    intro s
    refine ⟨by simp [runDriver, completedEsnsOf],
      by simp [runDriver, invoicesCountOf],
      by simp [runDriver, lineItemsOf],
      by simp [runDriver, lineItemsOf], ?_⟩
    intro _ inv hinv
    exact Or.inl hinv
  | cons st rest ih =>
    intro s
    cases st with
    | ok esn invoices t =>
      have hrun : runDriver (DriverStep.ok esn invoices t :: rest) now s
          = runDriver rest now (addEsnDataOk esn invoices t now s) := rfl
      obtain ⟨a1, a2, a3, a4, a5⟩ := addEsnDataOk_spec esn invoices t now s
      obtain ⟨i1, i2, i3, i4, i5⟩ := ih (addEsnDataOk esn invoices t now s)
      have hco : completedEsnsOf (DriverStep.ok esn invoices t :: rest)
          = esn :: completedEsnsOf rest := rfl
      have hic : invoicesCountOf (DriverStep.ok esn invoices t :: rest)
          = invoices.length + invoicesCountOf rest := by
        simp [invoicesCountOf]
      have hli : lineItemsOf (DriverStep.ok esn invoices t :: rest)
          = (invoices.map (fun inv => inv.lineItemCount)).sum
            + lineItemsOf rest := by
        simp [lineItemsOf]
      refine ⟨?_, ?_, ?_, ?_, ?_⟩
      · rw [hrun, i1, a1, hco]
        simp
      · rw [hrun, i2, a3, hic]
        simp only [Int.ofNat_eq_natCast]
        push_cast
        ring
      · rw [hrun, i3, a4, hli]
        omega
      · rw [hrun, i4, a2, hli, List.map_append, List.sum_append,
          List.map_map]
        have hcomp : ((fun inv => inv.lineItemCount) ∘ fun inv =>
            { inv with session_id := s.meta.session_id
                       esn_processing_time := t })
            = (fun inv : SessionInvoice => inv.lineItemCount) := rfl
        rw [hcomp]
        omega
      · intro htag inv hinv
        rw [hrun] at hinv
        have htag0 : stepTaggedB (DriverStep.ok esn invoices t) = true :=
          htag _ (List.mem_cons_self _ _)
        have hrest := i5 (fun st2 h2 => htag st2 (List.mem_cons_of_mem _ h2))
          inv hinv
        rcases hrest with hmem | hesn
        · rw [a2] at hmem
          rcases List.mem_append.mp hmem with hmem2 | hmem2
          · exact Or.inl hmem2
          · obtain ⟨inv0, hinv0, heq⟩ := List.mem_map.mp hmem2
            right
            rw [hco]
            have : inv.esn = inv0.esn := by rw [← heq]
            rw [this]
            simp only [stepTaggedB, List.all_eq_true] at htag0
            have := htag0 inv0 hinv0
            simp only [decide_eq_true_eq] at this
            rw [this]
            exact List.mem_cons_self _ _
        · right
          rw [hco]
          exact List.mem_cons_of_mem _ hesn
    | fail esn err =>
      have hrun : runDriver (DriverStep.fail esn err :: rest) now s
          = runDriver rest now (addFailedEsn esn err now s) := rfl
      obtain ⟨a1, a2, a3, a4, a5⟩ := addFailedEsn_spec esn err now s
      obtain ⟨i1, i2, i3, i4, i5⟩ := ih (addFailedEsn esn err now s)
      have hco : completedEsnsOf (DriverStep.fail esn err :: rest)
          = completedEsnsOf rest := rfl
      have hic : invoicesCountOf (DriverStep.fail esn err :: rest)
          = invoicesCountOf rest := by simp [invoicesCountOf]
      have hli : lineItemsOf (DriverStep.fail esn err :: rest)
          = lineItemsOf rest := by simp [lineItemsOf]
      refine ⟨?_, ?_, ?_, ?_, ?_⟩
      · rw [hrun, i1, a1, hco]
      · rw [hrun, i2, a3, hic]
      · rw [hrun, i3, a4, hli]
      · rw [hrun, i4, a2, hli]
      · intro htag inv hinv
        rw [hrun] at hinv
        have hrest := i5 (fun st2 h2 => htag st2 (List.mem_cons_of_mem _ h2))
          inv hinv
        rw [a2] at hrest
        rw [hco]
        exact hrest

/-- C1: for a session built from a fresh start by any sequence of
completed and failed units and then interrupted while unit `v` is marked
in progress (the checkpoint `start_esn_processing` persists), reloading
rolls back every record of `v`, leaves the completed-unit identifiers
exactly the units that completed before the interruption, keeps every
completed unit's records, restores the metadata counters to the sums over
the completed units, clears the marker, and marks the session RESUMED —
in particular a 5-completed / 1-in-progress session reloads to exactly
the 5 completed units with zero records from the 6th. -/
theorem c1_resume_correctness (steps : List DriverStep)
    (v sid start now now2 : String) (total : Nat)
    (htag : ∀ st ∈ steps, stepTaggedB st = true)
    (hv : v ∉ completedEsnsOf steps) :
    (startEsnProcessing v now (runDriver steps now
        (initProcessing total (initNewSession sid start)))).meta.current_esn_in_progress
      = some v ∧
    getCompletedEsns (loadExistingSession now2 (startEsnProcessing v now
        (runDriver steps now (initProcessing total (initNewSession sid start)))))
      = completedEsnsOf steps ∧
    (loadExistingSession now2 (startEsnProcessing v now
        (runDriver steps now (initProcessing total (initNewSession sid start))))).extracted_data
      = (runDriver steps now (initProcessing total (initNewSession sid start))).extracted_data ∧
    (∀ inv ∈ (loadExistingSession now2 (startEsnProcessing v now
        (runDriver steps now (initProcessing total (initNewSession sid start))))).extracted_data,
      inv.esn ≠ v) ∧
    (loadExistingSession now2 (startEsnProcessing v now
        (runDriver steps now (initProcessing total (initNewSession sid start))))).extraction.total_invoices
      = Int.ofNat (invoicesCountOf steps) ∧
    (loadExistingSession now2 (startEsnProcessing v now
        (runDriver steps now (initProcessing total (initNewSession sid start))))).extraction.total_line_items
      = lineItemsOf steps ∧
    (loadExistingSession now2 (startEsnProcessing v now
        (runDriver steps now (initProcessing total (initNewSession sid start))))).meta.current_esn_in_progress
      = none ∧
    (loadExistingSession now2 (startEsnProcessing v now
        (runDriver steps now (initProcessing total (initNewSession sid start))))).meta.current_status
      = "RESUMED" := by
  obtain ⟨r1, r2, r3, r4, r5⟩ := runDriver_spec steps now
    (initProcessing total (initNewSession sid start))
  have hdata := r5 htag
  have hnov : ∀ inv ∈ (runDriver steps now
      (initProcessing total (initNewSession sid start))).extracted_data,
      inv.esn ≠ v := by
    intro inv hinv hesn
    rcases hdata inv hinv with hmem | hco
    · simp [initProcessing, initNewSession] at hmem
    · rw [hesn] at hco
      exact hv hco
  have hfilter : (runDriver steps now
      (initProcessing total (initNewSession sid start))).extracted_data.filter
        (fun inv => inv.esn ≠ v)
      = (runDriver steps now
        (initProcessing total (initNewSession sid start))).extracted_data := by
    apply List.filter_eq_self.mpr
    intro inv hinv
    simpa using hnov inv hinv
  refine ⟨rfl, ?_, ?_, ?_, ?_, ?_, rfl, rfl⟩
  · show ((loadExistingSession now2 _).meta.completed_esns.map fun e => e.esn)
      = completedEsnsOf steps
    simp only [loadExistingSession, startEsnProcessing, rollbackIncompleteEsn]
    rw [show (initProcessing total (initNewSession sid start)).meta.completed_esns.map
        (fun e => e.esn) = [] from rfl] at r1
    rw [List.nil_append] at r1
    simpa [getCompletedEsns] using r1
  · simp only [loadExistingSession, startEsnProcessing, rollbackIncompleteEsn]
    exact hfilter
  · intro inv hinv
    simp only [loadExistingSession, startEsnProcessing,
      rollbackIncompleteEsn] at hinv
    rw [hfilter] at hinv
    exact hnov inv hinv
  · simp only [loadExistingSession, startEsnProcessing, rollbackIncompleteEsn]
    rw [hfilter]
    simp only [Nat.sub_self, Int.ofNat_zero, sub_zero]
    rw [show (initProcessing total (initNewSession sid start)).extraction.total_invoices
      = 0 from rfl, zero_add] at r2
    simpa using r2
  · simp only [loadExistingSession, startEsnProcessing, rollbackIncompleteEsn]
    rw [hfilter]
    rw [show ((initProcessing total (initNewSession sid start)).extracted_data.map
      (fun inv => inv.lineItemCount)).sum = 0 from rfl, zero_add] at r4
    exact r4

/-- C1 witness: the spec's resume scenario — five completed units, a sixth
in progress at the crash — reloads to exactly the five completed units,
no records of the sixth, and counters matching the five units. -/
theorem c1_witness :
    getCompletedEsns (loadExistingSession "T2" (startEsnProcessing "E6" "T1"
        (runDriver c1steps "T1" (initProcessing 6 (initNewSession "S1" "T0")))))
      = ["E1", "E2", "E3", "E4", "E5"] ∧
    (∀ inv ∈ (loadExistingSession "T2" (startEsnProcessing "E6" "T1"
        (runDriver c1steps "T1" (initProcessing 6
          (initNewSession "S1" "T0"))))).extracted_data,
      inv.esn ≠ "E6") ∧
    (loadExistingSession "T2" (startEsnProcessing "E6" "T1"
        (runDriver c1steps "T1" (initProcessing 6
          (initNewSession "S1" "T0"))))).extraction.total_invoices = 5 ∧
    (loadExistingSession "T2" (startEsnProcessing "E6" "T1"
        (runDriver c1steps "T1" (initProcessing 6
          (initNewSession "S1" "T0"))))).extraction.total_line_items = 11 := by
  have h := c1_resume_correctness c1steps "E6" "S1" "T0" "T1" "T2" 6
    (by decide) (by decide)
  exact ⟨h.2.1, h.2.2.2.1, h.2.2.2.2.1, h.2.2.2.2.2.1⟩

theorem validate_and_enhance_fields (inv : InvoiceData) (pdfName esn : String)
    (elapsed : ℚ) :
    (validate_and_enhance inv pdfName esn elapsed).supplier = inv.supplier ∧
    (validate_and_enhance inv pdfName esn elapsed).invoice_date
      = inv.invoice_date ∧
    (validate_and_enhance inv pdfName esn elapsed).invoice_number
      = inv.invoice_number ∧
    (validate_and_enhance inv pdfName esn elapsed).total_line_items
      = inv.total_line_items ∧
    (validate_and_enhance inv pdfName esn elapsed).invoice_total_usd
      = inv.invoice_total_usd ∧
    (validate_and_enhance inv pdfName esn elapsed).extraction_confidence
      = inv.extraction_confidence ∧
    (validate_and_enhance inv pdfName esn elapsed).line_items
      = inv.line_items ∧
    (validate_and_enhance inv pdfName esn elapsed).source_file = pdfName ∧
    (validate_and_enhance inv pdfName esn elapsed).processing_time_seconds
      = elapsed := by
  unfold validate_and_enhance
  by_cases h : esn = "" <;> simp [h]

theorem zipLineItems_roundtrip (m : RegexMatches) :
    ∀ it ∈ zipLineItems m, cacheDictToItem (itemToCacheDict it) = it := by
  intro it hit
  unfold zipLineItems at hit
  obtain ⟨i, _, hf⟩ := List.mem_filterMap.mp hit
  rcases hq : getParsedOrDefault m.quantities i 1 with _ | q1 <;>
    rcases hu : getParsedOrDefault m.unit_values i 0 with _ | q2 <;>
    rcases ht : getParsedOrDefault m.total_values i 0 with _ | q3 <;>
    simp only [hq, hu, ht] at hf <;>
    first
      | exact Option.noConfusion hf
      | (injection hf with hf
         rw [← hf]
         exact roundtrip_mkLineItem _ _ _ _ _ _ _ _)

theorem ai_extract_normalized (r : Option AiResponse) (inv : InvoiceData)
    (h : ai_extract r = some inv) :
    pyStrip inv.supplier = inv.supplier ∧
    pyStrip inv.invoice_date = inv.invoice_date ∧
    pyStrip inv.invoice_number = inv.invoice_number ∧
    inv.total_line_items = inv.line_items.length ∧
    ∀ it ∈ inv.line_items, cacheDictToItem (itemToCacheDict it) = it := by
  cases r with
  | none => exact absurd h (by simp [ai_extract])
  | some resp =>
    simp only [ai_extract] at h
    split at h
    · exact absurd h (by simp)
    · injection h with h
      rw [← h]
      refine ⟨pyStrip_idem _, pyStrip_idem _, pyStrip_idem _, rfl, ?_⟩
      intro it hit
      obtain ⟨raw, _, heq⟩ := List.mem_map.mp hit
      rw [← heq]
      exact roundtrip_mkLineItem _ _ _ _ _ _ _ _

theorem regex_extract_normalized (e : RegexEnv)
    (halt : ∀ it ∈ e.alt, cacheDictToItem (itemToCacheDict it) = it) :
    pyStrip (regex_extract e).supplier = (regex_extract e).supplier ∧
    pyStrip (regex_extract e).invoice_date = (regex_extract e).invoice_date ∧
    pyStrip (regex_extract e).invoice_number
      = (regex_extract e).invoice_number ∧
    (regex_extract e).total_line_items = (regex_extract e).line_items.length ∧
    ∀ it ∈ (regex_extract e).line_items,
      cacheDictToItem (itemToCacheDict it) = it := by
  refine ⟨pyStrip_idem _, pyStrip_idem _, pyStrip_idem _, rfl, ?_⟩
  intro it hit
  have hli : (regex_extract e).line_items
      = extract_line_items_regex e.matchLists e.alt := rfl
  rw [hli] at hit
  unfold extract_line_items_regex at hit
  by_cases hemp : (zipLineItems e.matchLists).isEmpty
  · rw [if_pos hemp] at hit
    exact halt it hit
  · rw [if_neg hemp] at hit
    exact zipLineItems_roundtrip e.matchLists it hit

theorem extract_invoice_data_normalized (ai : Option AiResponse)
    (e : RegexEnv)
    (halt : ∀ it ∈ e.alt, cacheDictToItem (itemToCacheDict it) = it) :
    pyStrip (extract_invoice_data ai e).supplier
      = (extract_invoice_data ai e).supplier ∧
    pyStrip (extract_invoice_data ai e).invoice_date
      = (extract_invoice_data ai e).invoice_date ∧
    pyStrip (extract_invoice_data ai e).invoice_number
      = (extract_invoice_data ai e).invoice_number ∧
    (extract_invoice_data ai e).total_line_items
      = (extract_invoice_data ai e).line_items.length ∧
    ∀ it ∈ (extract_invoice_data ai e).line_items,
      cacheDictToItem (itemToCacheDict it) = it := by
  unfold extract_invoice_data
  cases h : ai_extract ai with
  | none => exact regex_extract_normalized e halt
  | some inv => exact ai_extract_normalized ai inv h

theorem save_load_roundtrip (pdfName : String) (inv : InvoiceData)
    (hconf : inv.extraction_confidence ≠ ExtractionConfidence.ERROR)
    (hsup : pyStrip inv.supplier = inv.supplier)
    (hdate : pyStrip inv.invoice_date = inv.invoice_date)
    (hnum : pyStrip inv.invoice_number = inv.invoice_number)
    (hitems : ∀ it ∈ inv.line_items,
      cacheDictToItem (itemToCacheDict it) = it) :
    (save_to_cache pdfName inv).bind load_from_cache
      = some { supplier := inv.supplier
               invoice_date := inv.invoice_date
               invoice_number := inv.invoice_number
               total_line_items := inv.line_items.length
               invoice_total_usd := inv.invoice_total_usd
               extraction_confidence := inv.extraction_confidence
               line_items := inv.line_items
               source_file := ""
               extraction_notes := pyStrip ("CACHED: " ++ inv.extraction_notes)
               processing_time_seconds := 0 } := by
  have hmap : (inv.line_items.map itemToCacheDict).map cacheDictToItem
      = inv.line_items := by
    rw [List.map_map]
    have h2 : ∀ it ∈ inv.line_items,
        (cacheDictToItem ∘ itemToCacheDict) it = id it :=
      fun it hit => hitems it hit
    rw [List.map_congr_left h2, List.map_id]
  unfold save_to_cache
  rw [if_neg hconf]
  show load_from_cache _ = _
  unfold load_from_cache
  rw [confidenceOfValue_confidenceValue, hsup, hdate, hnum, hmap,
    List.length_map]

/-- C3 counterexample: on a concrete document the second (cache-hit)
extraction differs from the first not only in the cache-hit marker: the
`source_file` field is not persisted by the cache and comes back empty,
so the second result is not the first result with only its notes
replaced. -/
theorem c3_counterexample :
    c3second.remoteCalls = 0 ∧
    c3first.result.source_file = "doc.pdf" ∧
    c3second.result.source_file = "" ∧
    ¬ (c3second.result = { c3first.result with
        extraction_notes := c3second.result.extraction_notes }) := by
  refine ⟨by decide, by decide, by decide, ?_⟩
  intro h
  have h2 : c3second.result.source_file = c3first.result.source_file :=
    congrArg (fun inv => inv.source_file) h
  rw [show c3second.result.source_file = "" from by decide,
    show c3first.result.source_file = "doc.pdf" from by decide] at h2
  exact absurd h2 (by decide)

/-- C3 amended: extracting an unmodified document a second time is a cache
hit: no remote call is issued, and the returned record agrees with the
first result in supplier, date, invoice number, line items, line-item
count, total and confidence; the differences are exactly the cache-hit
marker prefixed to the notes, the `source_file` field (not persisted by
the cache, returned empty) and the freshly measured processing time. -/
theorem c3_cache_idempotence (env : PdfEnv) (pdfName esn : String)
    (t1 t2 : ℚ) (hc : env.cache = none)
    (halt : ∀ it ∈ env.regexEnv.alt,
      cacheDictToItem (itemToCacheDict it) = it)
    (hconf : (extract_from_pdf env pdfName esn t1).result.extraction_confidence
      ≠ ExtractionConfidence.ERROR) :
    (extract_from_pdf { env with
        cache := (extract_from_pdf env pdfName esn t1).cacheAfter }
      pdfName esn t2).remoteCalls = 0 ∧
    (extract_from_pdf { env with
        cache := (extract_from_pdf env pdfName esn t1).cacheAfter }
      pdfName esn t2).result.supplier
      = (extract_from_pdf env pdfName esn t1).result.supplier ∧
    (extract_from_pdf { env with
        cache := (extract_from_pdf env pdfName esn t1).cacheAfter }
      pdfName esn t2).result.invoice_date
      = (extract_from_pdf env pdfName esn t1).result.invoice_date ∧
    (extract_from_pdf { env with
        cache := (extract_from_pdf env pdfName esn t1).cacheAfter }
      pdfName esn t2).result.invoice_number
      = (extract_from_pdf env pdfName esn t1).result.invoice_number ∧
    (extract_from_pdf { env with
        cache := (extract_from_pdf env pdfName esn t1).cacheAfter }
      pdfName esn t2).result.line_items
      = (extract_from_pdf env pdfName esn t1).result.line_items ∧
    (extract_from_pdf { env with
        cache := (extract_from_pdf env pdfName esn t1).cacheAfter }
      pdfName esn t2).result.total_line_items
      = (extract_from_pdf env pdfName esn t1).result.total_line_items ∧
    (extract_from_pdf { env with
        cache := (extract_from_pdf env pdfName esn t1).cacheAfter }
      pdfName esn t2).result.invoice_total_usd
      = (extract_from_pdf env pdfName esn t1).result.invoice_total_usd ∧
    (extract_from_pdf { env with
        cache := (extract_from_pdf env pdfName esn t1).cacheAfter }
      pdfName esn t2).result.extraction_confidence
      = (extract_from_pdf env pdfName esn t1).result.extraction_confidence ∧
    (extract_from_pdf { env with
        cache := (extract_from_pdf env pdfName esn t1).cacheAfter }
      pdfName esn t2).result.extraction_notes
      = pyStrip ("CACHED: "
          ++ (extract_from_pdf env pdfName esn t1).result.extraction_notes) ∧
    (extract_from_pdf { env with
        cache := (extract_from_pdf env pdfName esn t1).cacheAfter }
      pdfName esn t2).result.source_file = "" ∧
    (extract_from_pdf { env with
        cache := (extract_from_pdf env pdfName esn t1).cacheAfter }
      pdfName esn t2).result.processing_time_seconds = t2 := by
  cases hdocs : env.docs with
  | none =>
    exfalso
    apply hconf
    simp only [extract_from_pdf, hc, extractUncached, hdocs]
    rfl
  | some docs =>
    by_cases herr : (validate_and_enhance
        (extract_invoice_data env.ai env.regexEnv) pdfName esn
          t1).extraction_confidence = ExtractionConfidence.ERROR
    · exfalso
      apply hconf
      simp only [extract_from_pdf, hc, extractUncached, hdocs]
      rw [if_pos herr]
      exact herr
    · have hfirst : extract_from_pdf env pdfName esn t1
          = { result := validate_and_enhance
                (extract_invoice_data env.ai env.regexEnv) pdfName esn t1
              cacheAfter := save_to_cache pdfName (validate_and_enhance
                (extract_invoice_data env.ai env.regexEnv) pdfName esn t1)
              remoteCalls := 2 } := by
        simp only [extract_from_pdf, hc, extractUncached, hdocs]
        rw [if_neg herr]
      obtain ⟨vs, vd, vn, vt, vu, vc, vl, vf, vp⟩ :=
        validate_and_enhance_fields
          (extract_invoice_data env.ai env.regexEnv) pdfName esn t1
      obtain ⟨ns, nd, nn, nt, nitems⟩ :=
        extract_invoice_data_normalized env.ai env.regexEnv halt
      have hrt := save_load_roundtrip pdfName
        (validate_and_enhance (extract_invoice_data env.ai env.regexEnv)
          pdfName esn t1) herr
        (by rw [vs]; exact ns) (by rw [vd]; exact nd) (by rw [vn]; exact nn)
        (by rw [vl]; exact nitems)
      cases hsv : save_to_cache pdfName (validate_and_enhance
          (extract_invoice_data env.ai env.regexEnv) pdfName esn t1) with
      | none =>
        exfalso
        unfold save_to_cache at hsv
        rw [if_neg herr] at hsv
        exact Option.noConfusion hsv
      | some entry =>
        rw [hsv] at hrt
        simp only [Option.some_bind] at hrt
        have hca : (extract_from_pdf env pdfName esn t1).cacheAfter
            = some entry := by
          rw [hfirst]
          exact hsv
        obtain ⟨X, hX⟩ : ∃ X, load_from_cache entry = some X := ⟨_, hrt⟩
        have hXB := hX.symm.trans hrt
        injection hXB with hXB
        have hsecond : extract_from_pdf
            { cache := (extract_from_pdf env pdfName esn t1).cacheAfter
              docs := some docs
              ai := env.ai
              regexEnv := env.regexEnv }
              pdfName esn t2
            = { result := { X with processing_time_seconds := t2 }
                cacheAfter := some entry
                remoteCalls := 0 } := by
          rw [hca]
          simp only [extract_from_pdf, hX]
        rw [hsecond, hfirst, hXB]
        refine ⟨rfl, rfl, rfl, rfl, rfl, ?_, rfl, rfl, rfl, rfl, rfl⟩
        show (validate_and_enhance (extract_invoice_data env.ai env.regexEnv)
          pdfName esn t1).line_items.length = _
        rw [vl, vt]
        exact nt.symm

/-- C3 witness: on the concrete document of the caching scenario the
second call is a cache hit with zero remote calls, agreeing with the
first result in supplier and line items and carrying an empty source
file. -/
theorem c3_witness :
    c3second.remoteCalls = 0 ∧
    c3second.result.supplier = c3first.result.supplier ∧
    c3second.result.line_items = c3first.result.line_items ∧
    c3second.result.source_file = "" := by
  have h := c3_cache_idempotence c3env "doc.pdf" "ESN1" 0 0 rfl
    (by intro it hit; exact absurd hit (List.not_mem_nil it))
    (by decide)
  exact ⟨h.1, h.2.1, h.2.2.2.2.1, h.2.2.2.2.2.2.2.2.2.1⟩

end ImportCompliance
